import Mathlib

/-!
Shallow embedding of `pyrednertensorflow/render_tensorflow.py`: the scene
serialization (`serialize_scene`), the reconstruction performed by `forward`,
and the gradient-list assembly performed by `backward`, together with the
module-level correlated-random-number toggle.

Tensors are modelled by their shape (list of dimensions); the numeric contents
of buffers are irrelevant to every property below, which all concern the
positional packing/unpacking protocol.  Python floats that are only carried
around (never computed with) are modelled by the opaque scalar type `RScalar`.
-/

namespace RenderTF

/-- Abstract stand-in for a Python float scalar that is only stored and passed
through (clip_near, pdf_norm).  No arithmetic is ever performed on it here. -/
abbrev RScalar := Int

/-- Model of a TensorFlow tensor: its shape.  `dims = []` is a rank-0 scalar. -/
structure Tensor where
  dims : List Nat
deriving DecidableEq

/-- `tf.size`: the number of elements, the product of the dimensions. -/
def tensorSize (t : Tensor) : Nat := t.dims.foldr (· * ·) 1

/-- `__EMPTY_TENSOR = tf.constant([])`: shape `(0,)`. -/
def EMPTY_TENSOR : Tensor := ⟨[0]⟩

/-- `is_empty_tensor(tensor)`: `tf.equal(tf.size(tensor), 0)`. -/
def is_empty_tensor (tensor : Tensor) : Bool := tensorSize tensor == 0

/-- `get_tensor_dimension(t)`: `len(t.get_shape())`, the rank. -/
def get_tensor_dimension (t : Tensor) : Nat := t.dims.length

/-- One element of the flat positional argument list built by
`serialize_scene`.  In the Python source every element is a `tf.Tensor`; the
constructors record which kind of value was wrapped: a real buffer, a
`tf.constant` of an int / float / bool / int pair, an enum tag tensor, or the
module-level `__EMPTY_TENSOR` marker. -/
inductive Arg where
  | tensor (t : Tensor)
  | intVal (n : Int)
  | floatVal (x : RScalar)
  | boolVal (b : Bool)
  | tagVal (n : Nat)
  | intPair (a b : Int)
  | empty
deriving DecidableEq

/-- `is_empty_tensor` applied to a flattened argument: the `__EMPTY_TENSOR`
marker and any size-0 tensor are empty; scalar constants have size 1. -/
def Arg.isEmptyTensor : Arg → Bool
  | .tensor t => is_empty_tensor t
  | .empty => true
  | _ => false

/-! ## Scene data model (the pyredner objects consumed by `serialize_scene`) -/

structure Camera where
  position : Tensor
  look_at : Tensor
  up : Tensor
  ndc_to_cam : Tensor
  cam_to_ndc : Tensor
  clip_near : RScalar
  resolution : Int × Int
  camera_type : Nat
deriving DecidableEq

structure Shape where
  vertices : Tensor
  indices : Tensor
  uvs : Option Tensor
  normals : Option Tensor
  material_id : Int
  light_id : Int
deriving DecidableEq

structure Texture where
  mipmap : Tensor
  uv_scale : Tensor
deriving DecidableEq

structure Material where
  diffuse_reflectance : Texture
  specular_reflectance : Texture
  roughness : Texture
  two_sided : Bool
deriving DecidableEq

structure AreaLight where
  shape_id : Nat
  intensity : Tensor
  two_sided : Bool
deriving DecidableEq

structure EnvironmentMap where
  values : Texture
  env_to_world : Tensor
  world_to_env : Tensor
  sample_cdf_ys : Tensor
  sample_cdf_xs : Tensor
  pdf_norm : RScalar
deriving DecidableEq

structure Scene where
  camera : Camera
  shapes : List Shape
  materials : List Material
  area_lights : List AreaLight
  envmap : Option EnvironmentMap
deriving DecidableEq

/-! ## Module global state and the correlated-random-number toggle -/

/-- The module-level globals of `render_tensorflow.py` that the embedded
fragment reads or writes. -/
structure ModuleState where
  use_correlated_random_number : Bool
deriving DecidableEq

/-- Initial module state: `use_correlated_random_number = False`. -/
def initState : ModuleState := ⟨false⟩

/-- `set_use_correlated_random_number(v)`: the body declares
`global use_correlated_random_number` but then assigns `use_gpu = v`, which in
Python binds a fresh local variable `use_gpu`; the global named in the
`global` statement is never written, so the module state is unchanged. -/
def set_use_correlated_random_number (st : ModuleState) (v : Bool) : ModuleState :=
  let use_gpu := v
  st

/-- `get_use_correlated_random_number()`: returns the global. -/
def get_use_correlated_random_number (st : ModuleState) : Bool :=
  st.use_correlated_random_number

/-! ## serialize_scene -/

/-- `scene.shapes[sid].light_id = lid`, leaving every other list entry and
every other field untouched.  (Out-of-range `sid` raises in Python; here it is
a no-op, and every theorem that relies on the write carries an in-range
hypothesis.) -/
def setLightId : List Shape → Nat → Int → List Shape
  | [], _, _ => []
  | s :: ss, 0, lid => { s with light_id := lid } :: ss
  | s :: ss, n + 1, lid => s :: setLightId ss n lid

/-- The in-place mutation loop at the top of `serialize_scene`:
`for light_id, light in enumerate(scene.area_lights):
    scene.shapes[light.shape_id].light_id = light_id`,
with `start` the enumeration index of the first remaining light. -/
def annotateLightIds (shapes : List Shape) : List AreaLight → Nat → List Shape
  | [], _ => shapes
  | l :: ls, start => annotateLightIds (setLightId shapes l.shape_id (start : Int)) ls (start + 1)

/-- Concatenation of per-record argument blocks, mirroring the
`for record in scene.xs: args.append(...)` loops. -/
def flatArgs (f : α → List β) : List α → List β
  | [] => []
  | a :: as => f a ++ flatArgs f as

/-- Camera fields, args 4–11 of `serialize_scene`. -/
def cameraArgs (cam : Camera) : List Arg :=
  [Arg.tensor cam.position, Arg.tensor cam.look_at, Arg.tensor cam.up,
   Arg.tensor cam.ndc_to_cam, Arg.tensor cam.cam_to_ndc,
   Arg.floatVal cam.clip_near, Arg.intPair cam.resolution.1 cam.resolution.2,
   Arg.tagVal cam.camera_type]

/-- Per-shape block: vertices, indices, uvs-or-`__EMPTY_TENSOR`,
normals-or-`__EMPTY_TENSOR`, material id, light id. -/
def shapeArgs (shape : Shape) : List Arg :=
  [Arg.tensor shape.vertices, Arg.tensor shape.indices,
   (match shape.uvs with | none => Arg.empty | some u => Arg.tensor u),
   (match shape.normals with | none => Arg.empty | some n => Arg.tensor n),
   Arg.intVal shape.material_id, Arg.intVal shape.light_id]

/-- Per-material block: diffuse mipmap, diffuse uv scale, specular mipmap,
specular uv scale, roughness mipmap, roughness uv scale, two-sided flag. -/
def materialArgs (material : Material) : List Arg :=
  [Arg.tensor material.diffuse_reflectance.mipmap,
   Arg.tensor material.diffuse_reflectance.uv_scale,
   Arg.tensor material.specular_reflectance.mipmap,
   Arg.tensor material.specular_reflectance.uv_scale,
   Arg.tensor material.roughness.mipmap,
   Arg.tensor material.roughness.uv_scale,
   Arg.boolVal material.two_sided]

/-- Per-area-light block: shape id, intensity, two-sided flag. -/
def lightArgs (light : AreaLight) : List Arg :=
  [Arg.intVal light.shape_id, Arg.tensor light.intensity, Arg.boolVal light.two_sided]

/-- Environment-map block: the 7 real fields when present, else 7
`__EMPTY_TENSOR` markers. -/
def envmapArgs : Option EnvironmentMap → List Arg
  | some e =>
    [Arg.tensor e.values.mipmap, Arg.tensor e.values.uv_scale,
     Arg.tensor e.env_to_world, Arg.tensor e.world_to_env,
     Arg.tensor e.sample_cdf_ys, Arg.tensor e.sample_cdf_xs,
     Arg.floatVal e.pdf_norm]
  | none =>
    [Arg.empty, Arg.empty, Arg.empty, Arg.empty, Arg.empty, Arg.empty, Arg.empty]

/-- Args 1–11 of `serialize_scene`: the three counts followed by the camera. -/
def serHeader (scene : Scene) : List Arg :=
  [Arg.intVal (scene.shapes.length : Int), Arg.intVal (scene.materials.length : Int),
   Arg.intVal (scene.area_lights.length : Int)] ++ cameraArgs scene.camera

/-- The flat argument list built by `serialize_scene` after the light-id
mutation (the `args.append` sequence of lines 104–167). -/
def serializeArgs (scene : Scene) (num_samples max_bounces : Int) (channels : List Nat)
    (sampler_type : Nat)
    (use_primary_edge_sampling use_secondary_edge_sampling : Bool) : List Arg :=
  serHeader scene
  ++ (flatArgs shapeArgs scene.shapes
  ++ (flatArgs materialArgs scene.materials
  ++ (flatArgs lightArgs scene.area_lights
  ++ (envmapArgs scene.envmap
  ++ ([Arg.intVal num_samples, Arg.intVal max_bounces, Arg.intVal (channels.length : Int)]
  ++ (channels.map Arg.tagVal
  ++ [Arg.tagVal sampler_type, Arg.boolVal use_primary_edge_sampling,
      Arg.boolVal use_secondary_edge_sampling]))))))

/-- `serialize_scene(scene, num_samples, max_bounces, channels, sampler_type,
use_primary_edge_sampling, use_secondary_edge_sampling)`.  The first component
is the scene as left behind by the in-place light-id mutation; the second is
the returned flat argument list (built from the mutated shape records). -/
def serialize_scene (scene : Scene) (num_samples max_bounces : Int) (channels : List Nat)
    (sampler_type : Nat)
    (use_primary_edge_sampling use_secondary_edge_sampling : Bool) : Scene × List Arg :=
  let scene' : Scene :=
    { scene with shapes := annotateLightIds scene.shapes scene.area_lights 0 }
  (scene', serializeArgs scene' num_samples max_bounces channels sampler_type
      use_primary_edge_sampling use_secondary_edge_sampling)

/-! ## forward: the scene reconstructor

`forward(seed, *args)` walks the flat list positionally and rebuilds native
`redner` objects.  The native handles (`redner.Shape`, `redner.Texture3`,
`redner.Texture1`, `redner.Material`, `redner.AreaLight`,
`redner.EnvironmentMap`) are opaque engine objects; they are modelled here as
records holding exactly the scalar data the Python constructor passes in and
that the backward pass later reads back through their accessors
(`num_vertices`, `has_uvs()`, `has_normals()`, `get_diffuse_size()`, …).
Parsing failure (`none`) models a Python exception (IndexError on a too-short
list, a failed `int()`/shape access, or the roughness rank assertion). -/

/-- Modelled from the spec: the native `redner.Shape` handle, missing from
`src/`.  It retains the vertex/triangle counts passed to its constructor, and
`has_uvs()`/`has_normals()` report whether a (non-null, non-empty) buffer
pointer was supplied — per §4.4, adjoint UV/normal buffers are allocated "only
if the corresponding forward buffer existed". -/
structure RShape where
  num_vertices : Nat
  num_triangles : Nat
  has_uvs : Bool
  has_normals : Bool
  material_id : Int
  light_id : Int
deriving DecidableEq

/-- Modelled from the spec: the size triple a native `redner.Texture3` /
`redner.Texture1` handle retains, as later returned by
`get_diffuse_size()`-style accessors: (width, height, num levels). -/
structure RTexture where
  width : Nat
  height : Nat
  levels : Nat
deriving DecidableEq

/-- Modelled from the spec: the native `redner.AreaLight` handle. -/
structure RAreaLight where
  shape_id : Int
  two_sided : Bool
deriving DecidableEq

/-- Lines 255–265 (and 266–276): 3-channel texture construction.  Rank 1 ⇒
constant texture `(0, 0, 0)`; otherwise width/height/levels are read from
`shape[2]`, `shape[1]`, `shape[0]` (failing, as Python does, if the rank is
below 3). -/
def makeTexture3 (t : Tensor) : Option RTexture :=
  if get_tensor_dimension t = 1 then some ⟨0, 0, 0⟩
  else
    match t.dims with
    | l :: h :: w :: _ => some ⟨w, h, l⟩
    | _ => none

/-- Lines 277–288: 1-channel (roughness) texture construction.  Rank 1 ⇒
constant; otherwise `assert get_tensor_dimension(roughness) == 4` and the
dims are read as for `makeTexture3`. -/
def makeTexture1 (t : Tensor) : Option RTexture :=
  if get_tensor_dimension t = 1 then some ⟨0, 0, 0⟩
  else if get_tensor_dimension t = 4 then
    match t.dims with
    | l :: h :: w :: _ => some ⟨w, h, l⟩
    | _ => none
  else none

/-- Reading a slot that Python treats as a tensor buffer; the
`__EMPTY_TENSOR` marker is itself a (size-0) tensor. -/
def argAsTensor : Arg → Option Tensor
  | .tensor t => some t
  | .empty => some EMPTY_TENSOR
  | _ => none

/-- Lines 178–183: the three leading counts, via `int(...)`. -/
def parseCounts : List Arg → Option ((Nat × Nat × Nat) × List Arg)
  | .intVal ns :: .intVal nm :: .intVal nl :: rest =>
    some ((ns.toNat, nm.toNat, nl.toNat), rest)
  | _ => none

/-- Lines 186–211: the eight camera slots (values feed the native
`redner.Camera` handle, which the backward pass never reads back). -/
def parseCamera : List Arg → Option (List Arg)
  | .tensor _pos :: .tensor _look :: .tensor _up :: .tensor _n2c :: .tensor _c2n ::
      .floatVal _clip :: .intPair _r0 _r1 :: .tagVal _ct :: rest => some rest
  | _ => none

/-- Lines 213–235: the per-shape loop. -/
def parseShapes : Nat → List Arg → Option (List RShape × List Arg)
  | 0, args => some ([], args)
  | n + 1, .tensor vertices :: .tensor indices :: uvsArg :: normalsArg ::
      .intVal material_id :: .intVal light_id :: rest =>
    match vertices.dims, indices.dims, argAsTensor uvsArg, argAsTensor normalsArg with
    | nv :: _, nt :: _, some uvs, some normals =>
      match parseShapes n rest with
      | some (shapes, rest') =>
        some (⟨nv, nt, !(is_empty_tensor uvs), !(is_empty_tensor normals),
               material_id, light_id⟩ :: shapes, rest')
      | none => none
    | _, _, _, _ => none
  | _ + 1, _ => none

/-- Modelled from the spec: the native `redner.Material` handle retains the
three texture size triples and the flag passed to its constructor. -/
structure RMaterial where
  diffuse : RTexture
  specular : RTexture
  roughness : RTexture
  two_sided : Bool
deriving DecidableEq

/-- Lines 238–293: the per-material loop. -/
def parseMaterials : Nat → List Arg → Option (List RMaterial × List Arg)
  | 0, args => some ([], args)
  | n + 1, .tensor diffuse :: .tensor _duv :: .tensor specular :: .tensor _suv ::
      .tensor roughness :: .tensor _ruv :: .boolVal two_sided :: rest =>
    match makeTexture3 diffuse, makeTexture3 specular, makeTexture1 roughness with
    | some dt, some st, some rt =>
      match parseMaterials n rest with
      | some (materials, rest') => some (⟨dt, st, rt, two_sided⟩ :: materials, rest')
      | none => none
    | _, _, _ => none
  | _ + 1, _ => none

/-- Lines 295–307: the per-area-light loop. -/
def parseLights : Nat → List Arg → Option (List RAreaLight × List Arg)
  | 0, args => some ([], args)
  | n + 1, .intVal shape_id :: .tensor _intensity :: .boolVal two_sided :: rest =>
    match parseLights n rest with
    | some (lights, rest') => some (⟨shape_id, two_sided⟩ :: lights, rest')
    | none => none
  | _ + 1, _ => none

/-- Lines 309–343: the environment-map block.  If the first of the 7 slots is
a non-empty tensor the block is parsed (the texture sizes are read directly
from `values.shape[2]/[1]/[0]`, no rank-1 branch here); otherwise the 7 slots
are skipped as a unit (`current_index += 7`).  The retained handle is the
`get_size()` triple the backward pass reads back. -/
def parseEnvmap : List Arg → Option (Option RTexture × List Arg)
  | [] => none
  | a :: rest =>
    if a.isEmptyTensor then some (none, (a :: rest).drop 7)
    else
      match a :: rest with
      | .tensor values :: .tensor _uv :: .tensor _e2w :: .tensor _w2e ::
          .tensor _cys :: .tensor _cxs :: .floatVal _pdf :: rest' =>
        match values.dims with
        | l :: h :: w :: _ => some (some ⟨w, h, l⟩, rest')
        | _ => none
      | _ => none

/-- Lines 354–359: the per-channel tag loop. -/
def parseChannels : Nat → List Arg → Option (List Arg)
  | 0, args => some args
  | n + 1, .tagVal _ch :: rest => parseChannels n rest
  | _ + 1, _ => none

/-- The retained context (`ctx.shapes`, `ctx.materials`, `ctx.area_lights`,
`ctx.envmap`, `ctx.options`, `ctx.num_samples`, `ctx.num_channels`) that
`forward` stores into the module-level `__ctx` and `backward` reads. -/
structure Ctx where
  shapes : List RShape
  materials : List RMaterial
  area_lights : List RAreaLight
  envmap : Option RTexture
  seed : Int
  max_bounces : Int
  num_samples : Int × Int
  num_channels : Nat
deriving DecidableEq

/-- `forward(seed, *args)`: positional reconstruction of the scene.  The
result is the retained context; `none` models a Python-level failure.  The
rendered image itself (a zero buffer handed to the opaque engine) carries no
information used by any claim and is not modelled. -/
def forward (seed : Int) (args : List Arg) : Option Ctx :=
  match parseCounts args with
  | none => none
  | some ((num_shapes, num_materials, num_lights), rest0) =>
    match parseCamera rest0 with
    | none => none
    | some rest1 =>
      match parseShapes num_shapes rest1 with
      | none => none
      | some (shapes, rest2) =>
        match parseMaterials num_materials rest2 with
        | none => none
        | some (materials, rest3) =>
          match parseLights num_lights rest3 with
          | none => none
          | some (area_lights, rest4) =>
            match parseEnvmap rest4 with
            | none => none
            | some (envmap, rest5) =>
              match rest5 with
              | .intVal num_samples :: .intVal max_bounces ::
                  .intVal num_channels :: rest6 =>
                match parseChannels num_channels.toNat rest6 with
                | none => none
                | some rest7 =>
                  match rest7 with
                  | .tagVal _sampler :: .boolVal _upes :: .boolVal _uses :: _ =>
                    some { shapes, materials, area_lights, envmap, seed,
                           max_bounces,
                           num_samples := (num_samples, num_samples),
                           num_channels := num_channels.toNat }
                  | _ => none
              | _ => none

/-- `render(*x)`: `seed, args = int(x[0]), x[1:]`, then `forward(seed, *args)`
(the backward closure returned alongside the image is `backward` below). -/
def render (x : List Arg) : Option Ctx :=
  match x with
  | x0 :: args =>
    match x0 with
    | .intVal seed => forward seed args
    | _ => none
  | [] => none

/-! ## backward: the gradient assembler -/

/-- The record of `options` mutations performed by `backward` plus the
positional gradient list it returns.  An entry `none` in `ret_list` is the
explicit no-gradient marker (`None`); `some t` is a zero-initialized buffer of
shape `t`. -/
structure BackwardResult where
  options_seed : Int
  options_num_samples : Int
  ret_list : List (Option Tensor)
deriving DecidableEq

/-- Backward slots 0–11: seed, the three counts, the five camera adjoint
buffers (`d_position`, `d_look_at`, `d_up` of shape (3,), `d_ndc_to_cam`,
`d_cam_to_ndc` of shape (3,3)), clip near, resolution, camera type. -/
def headerGrads : List (Option Tensor) :=
  [none, none, none, none,
   some ⟨[3]⟩, some ⟨[3]⟩, some ⟨[3]⟩, some ⟨[3, 3]⟩, some ⟨[3, 3]⟩,
   none, none, none]

/-- Lines 457–468 and 602–608: per-shape adjoint slots.  `d_vertices` is
`zeros([num_vertices, 3])`; `d_uvs` is `zeros([num_vertices, 2])` only if
`shape.has_uvs()`, else `None`; `d_normals` likewise with `[num_vertices, 3]`;
indices, material id and light id get `None`. -/
def d_shape_slots (s : RShape) : List (Option Tensor) :=
  [some ⟨[s.num_vertices, 3]⟩, none,
   (if s.has_uvs then some ⟨[s.num_vertices, 2]⟩ else none),
   (if s.has_normals then some ⟨[s.num_vertices, 3]⟩ else none),
   none, none]

/-- Lines 478–484: `d_diffuse` (and line 485–491, `d_specular`) is `zeros(3)`
when `size[0] == 0` (constant texture), else
`zeros([size[2], size[1], size[0], 3])` = (levels, height, width, 3). -/
def d_texture3 (t : RTexture) : Tensor :=
  if t.width = 0 then ⟨[3]⟩ else ⟨[t.levels, t.height, t.width, 3]⟩

/-- Lines 492–498: `d_roughness` is `zeros([1])` for a constant, else
`zeros([size[2], size[1], size[0], 1])`. -/
def d_texture1 (t : RTexture) : Tensor :=
  if t.width = 0 then ⟨[1]⟩ else ⟨[t.levels, t.height, t.width, 1]⟩

/-- Lines 610–618: per-material backward slots. -/
def d_material_slots (m : RMaterial) : List (Option Tensor) :=
  [some (d_texture3 m.diffuse), none, some (d_texture3 m.specular), none,
   some (d_texture1 m.roughness), none, none]

/-- Lines 620–624: per-light backward slots; `d_intensity` is `zeros([3])`. -/
def d_light_slots (_l : RAreaLight) : List (Option Tensor) :=
  [none, some ⟨[3]⟩, none]

/-- Lines 626–641: the backward environment-map block.  With an envmap the
slots are `d_envmap_values` (shape (levels, height, width, 3)), `None`,
`None`, `d_world_to_env` (shape (4,4)), `None`, `None`, `None`; without one,
seven `None`s. -/
def d_envmap_slots : Option RTexture → List (Option Tensor)
  | some tex => [some ⟨[tex.levels, tex.height, tex.width, 3]⟩, none, none,
                 some ⟨[4, 4]⟩, none, none, none]
  | none => [none, none, none, none, none, none, none]

/-- Lines 643–651: sample count, max bounces, channel count, one `None` per
channel, sampler type, the two edge-sampling flags. -/
def tailGrads (num_channels : Nat) : List (Option Tensor) :=
  [none, none, none] ++ List.replicate num_channels none ++ [none, none, none]

/-- The backward closure (lines 438–697).  It reads the retained context and
the module globals, advances `options.seed` by 1000003 unless
`get_use_correlated_random_number()` is set, switches `options.num_samples` to
the backward sample count, invokes the opaque adjoint engine call, and
assembles the positional gradient list. -/
def backward (st : ModuleState) (grad_img : Tensor) (ctx : Ctx) : BackwardResult :=
  { options_seed :=
      if get_use_correlated_random_number st then ctx.seed else ctx.seed + 1000003,
    options_num_samples := ctx.num_samples.2,
    ret_list :=
      headerGrads
      ++ (flatArgs d_shape_slots ctx.shapes
      ++ (flatArgs d_material_slots ctx.materials
      ++ (flatArgs d_light_slots ctx.area_lights
      ++ (d_envmap_slots ctx.envmap
      ++ tailGrads ctx.num_channels)))) }

/-! ## Characterization of the context reconstructed from a serialized scene -/

/-- The `redner.Shape` handle `forward` builds from the serialized block of
one pyredner shape (`none` when `int(vertices.shape[0])` or
`int(indices.shape[0])` would fail on a rank-0 tensor). -/
def rshapeOf (s : Shape) : Option RShape :=
  match s.vertices.dims, s.indices.dims with
  | nv :: _, nt :: _ =>
    some ⟨nv, nt,
          (match s.uvs with | none => false | some u => !(is_empty_tensor u)),
          (match s.normals with | none => false | some u => !(is_empty_tensor u)),
          s.material_id, s.light_id⟩
  | _, _ => none

/-- The `redner.Material` handle `forward` builds from one serialized
material. -/
def rmaterialOf (m : Material) : Option RMaterial :=
  match makeTexture3 m.diffuse_reflectance.mipmap,
        makeTexture3 m.specular_reflectance.mipmap,
        makeTexture1 m.roughness.mipmap with
  | some dt, some st, some rt => some ⟨dt, st, rt, m.two_sided⟩
  | _, _, _ => none

/-- The `redner.AreaLight` handle built from one serialized area light. -/
def rlightOf (l : AreaLight) : RAreaLight := ⟨(l.shape_id : Int), l.two_sided⟩

/-- All shape handles, failing if any single one fails. -/
def ctxShapes : List Shape → Option (List RShape)
  | [] => some []
  | s :: ss =>
    match rshapeOf s, ctxShapes ss with
    | some r, some rs => some (r :: rs)
    | _, _ => none

/-- All material handles, failing if any single one fails. -/
def ctxMaterials : List Material → Option (List RMaterial)
  | [] => some []
  | m :: ms =>
    match rmaterialOf m, ctxMaterials ms with
    | some r, some rs => some (r :: rs)
    | _, _ => none

/-- The retained envmap handle: absent scenes and scenes whose radiance
mipmap is an empty tensor both reconstruct to `none` (the empty check guards
the whole block); a present non-empty mipmap must expose at least three
dims. -/
def renvOf : Option EnvironmentMap → Option (Option RTexture)
  | none => some none
  | some e =>
    if is_empty_tensor e.values.mipmap then some none
    else
      match e.values.mipmap.dims with
      | l :: h :: w :: _ => some (some ⟨w, h, l⟩)
      | _ => none

/-- The context `forward` retains when run on `serialize_scene`'s output for
`scene` (stated and proved as `forward_serializeArgs` below). -/
def ctxOf (scene : Scene) (seed num_samples max_bounces : Int)
    (num_channels : Nat) : Option Ctx :=
  match ctxShapes scene.shapes, ctxMaterials scene.materials, renvOf scene.envmap with
  | some ss, some ms, some env =>
    some { shapes := ss, materials := ms,
           area_lights := scene.area_lights.map rlightOf, envmap := env,
           seed, max_bounces, num_samples := (num_samples, num_samples),
           num_channels }
  | _, _, _ => none

/-! ## List access helpers -/

theorem flatArgs_length (f : α → List β) (k : Nat) (hk : ∀ a, (f a).length = k)
    (l : List α) : (flatArgs f l).length = k * l.length := by
  induction l with
  | nil => simp [flatArgs]
  | cons a as ih => simp [flatArgs, ih, hk a, Nat.mul_succ, Nat.add_comm]

theorem append_getElem?_add (xs ys : List α) (n : Nat) :
    (xs ++ ys)[xs.length + n]? = ys[n]? := by
  induction xs with
  | nil => simp
  | cons a t ih => simpa [Nat.succ_add] using ih

theorem flatArgs_skip (f : α → List β) (k : Nat) (hk : ∀ a, (f a).length = k)
    (l : List α) (suffix : List β) (m : Nat) :
    (flatArgs f l ++ suffix)[k * l.length + m]? = suffix[m]? := by
  rw [show k * l.length = (flatArgs f l).length from (flatArgs_length f k hk l).symm]
  exact append_getElem?_add _ _ _

theorem flatArgs_pick (f : α → List β) (k : Nat) (hk : ∀ a, (f a).length = k)
    (l : List α) (suffix : List β) (i j : Nat) (hi : i < l.length) (hj : j < k) :
    (flatArgs f l ++ suffix)[k * i + j]? = (f (l.get ⟨i, hi⟩))[j]? := by
  induction l generalizing i suffix with
  | nil => simp at hi
  | cons a as ih =>
    cases i with
    | zero =>
      have hlt : k * 0 + j < (f a).length := by rw [hk a]; simpa using hj
      rw [flatArgs, List.append_assoc, List.getElem?_append_left hlt]
      simp
    | succ i' =>
      have harith : k * (i' + 1) + j = (f a).length + (k * i' + j) := by
        rw [hk a]; ring
      rw [flatArgs, List.append_assoc, harith, append_getElem?_add]
      exact ih _ _ (by simpa using hi)

/-! ## forward ∘ serialize: the reconstruction round-trip -/

@[simp] theorem is_empty_tensor_EMPTY : is_empty_tensor EMPTY_TENSOR = true := rfl

theorem parseShapes_flat (shapes : List Shape) (rest : List Arg) :
    parseShapes shapes.length (flatArgs shapeArgs shapes ++ rest) =
      match ctxShapes shapes with
      | some rs => some (rs, rest)
      | none => none := by
  induction shapes with
  | nil => simp [flatArgs, parseShapes, ctxShapes]
  | cons sh ss ih =>
    show parseShapes (ss.length + 1) _ = _
    cases h1 : sh.vertices.dims with
    | nil =>
      cases h2 : sh.uvs <;> cases h3 : sh.normals <;>
        simp [flatArgs, shapeArgs, parseShapes, argAsTensor, h1, h2, h3,
          ctxShapes, rshapeOf]
    | cons nv nvs =>
      cases h4 : sh.indices.dims with
      | nil =>
        cases h2 : sh.uvs <;> cases h3 : sh.normals <;>
          simp [flatArgs, shapeArgs, parseShapes, argAsTensor, h1, h2, h3, h4,
            ctxShapes, rshapeOf]
      | cons nt nts =>
        cases h2 : sh.uvs <;> cases h3 : sh.normals <;>
          cases hss : ctxShapes ss <;>
            simp [flatArgs, shapeArgs, parseShapes, argAsTensor, h1, h2, h3, h4,
              ctxShapes, rshapeOf, ih, hss]

theorem parseMaterials_flat (materials : List Material) (rest : List Arg) :
    parseMaterials materials.length (flatArgs materialArgs materials ++ rest) =
      match ctxMaterials materials with
      | some rs => some (rs, rest)
      | none => none := by
  induction materials with
  | nil => simp [flatArgs, parseMaterials, ctxMaterials]
  | cons m ms ih =>
    show parseMaterials (ms.length + 1) _ = _
    cases h1 : makeTexture3 m.diffuse_reflectance.mipmap <;>
      cases h2 : makeTexture3 m.specular_reflectance.mipmap <;>
        cases h3 : makeTexture1 m.roughness.mipmap <;>
          cases hms : ctxMaterials ms <;>
            simp [flatArgs, materialArgs, parseMaterials, h1, h2, h3,
              ctxMaterials, rmaterialOf, ih, hms]

theorem parseLights_flat (lights : List AreaLight) (rest : List Arg) :
    parseLights lights.length (flatArgs lightArgs lights ++ rest) =
      some (lights.map rlightOf, rest) := by
  induction lights with
  | nil => simp [flatArgs, parseLights]
  | cons l ls ih =>
    show parseLights (ls.length + 1) _ = _
    simp [flatArgs, lightArgs, parseLights, ih, rlightOf]

theorem parseEnvmap_args (envmap : Option EnvironmentMap) (rest : List Arg) :
    parseEnvmap (envmapArgs envmap ++ rest) =
      match renvOf envmap with
      | some env => some (env, rest)
      | none => none := by
  cases envmap with
  | none => simp [envmapArgs, parseEnvmap, renvOf, Arg.isEmptyTensor]
  | some e =>
    cases hemp : is_empty_tensor e.values.mipmap with
    | true => simp [envmapArgs, parseEnvmap, renvOf, Arg.isEmptyTensor, hemp]
    | false =>
      cases hd : e.values.mipmap.dims with
      | nil => simp [envmapArgs, parseEnvmap, renvOf, Arg.isEmptyTensor, hemp, hd]
      | cons l tl =>
        cases tl with
        | nil => simp [envmapArgs, parseEnvmap, renvOf, Arg.isEmptyTensor, hemp, hd]
        | cons h tl2 =>
          cases tl2 with
          | nil => simp [envmapArgs, parseEnvmap, renvOf, Arg.isEmptyTensor, hemp, hd]
          | cons w tl3 =>
            simp [envmapArgs, parseEnvmap, renvOf, Arg.isEmptyTensor, hemp, hd]

theorem parseChannels_map (channels : List Nat) (rest : List Arg) :
    parseChannels channels.length (channels.map Arg.tagVal ++ rest) = some rest := by
  induction channels with
  | nil => simp [parseChannels]
  | cons c cs ih =>
    show parseChannels (cs.length + 1) _ = _
    simp [parseChannels, ih]

/-- Round-trip: running `forward` on the argument list produced by
`serialize_scene`'s flattening step reconstructs exactly the context
characterized by `ctxOf`. -/
theorem forward_serializeArgs (scene : Scene) (ns mb : Int) (ch : List Nat)
    (sty : Nat) (p s : Bool) (seed : Int) :
    forward seed (serializeArgs scene ns mb ch sty p s) =
      ctxOf scene seed ns mb ch.length := by
  cases hss : ctxShapes scene.shapes with
  | none =>
    simp [serializeArgs, serHeader, cameraArgs, forward, parseCounts, parseCamera,
      List.append_assoc, parseShapes_flat, hss, ctxOf]
  | some ss =>
    cases hms : ctxMaterials scene.materials with
    | none =>
      simp [serializeArgs, serHeader, cameraArgs, forward, parseCounts, parseCamera,
        List.append_assoc, parseShapes_flat, hss, parseMaterials_flat, hms, ctxOf]
    | some ms =>
      cases henv : renvOf scene.envmap with
      | none =>
        simp [serializeArgs, serHeader, cameraArgs, forward, parseCounts, parseCamera,
          List.append_assoc, parseShapes_flat, hss, parseMaterials_flat, hms,
          parseLights_flat, parseEnvmap_args, henv, ctxOf]
      | some env =>
        simp [serializeArgs, serHeader, cameraArgs, forward, parseCounts, parseCamera,
          List.append_assoc, parseShapes_flat, hss, parseMaterials_flat, hms,
          parseLights_flat, parseEnvmap_args, henv, parseChannels_map, ctxOf]

theorem ctxShapes_length {shapes : List Shape} {rs : List RShape}
    (h : ctxShapes shapes = some rs) : rs.length = shapes.length := by
  induction shapes generalizing rs with
  | nil => simp [ctxShapes] at h; simp [← h]
  | cons s ss ih =>
    rw [ctxShapes] at h
    cases h1 : rshapeOf s <;> rw [h1] at h
    · exact absurd h (by simp)
    · cases h2 : ctxShapes ss <;> rw [h2] at h
      · exact absurd h (by simp)
      · cases h; simp [ih h2]

theorem ctxShapes_get {shapes : List Shape} {rs : List RShape}
    (h : ctxShapes shapes = some rs) (i : Nat) (hi : i < shapes.length) :
    ∃ hi' : i < rs.length, rshapeOf (shapes.get ⟨i, hi⟩) = some (rs.get ⟨i, hi'⟩) := by
  induction shapes generalizing rs i with
  | nil => simp at hi
  | cons s ss ih =>
    rw [ctxShapes] at h
    cases h1 : rshapeOf s <;> rw [h1] at h
    · exact absurd h (by simp)
    · cases h2 : ctxShapes ss <;> rw [h2] at h
      · exact absurd h (by simp)
      · cases h
        cases i with
        | zero => exact ⟨by simp, by simpa using h1⟩
        | succ i' =>
          obtain ⟨hi', hx⟩ := ih h2 i' (by simpa using hi)
          exact ⟨by simpa using Nat.succ_lt_succ hi', by simpa using hx⟩

theorem ctxMaterials_length {materials : List Material} {rs : List RMaterial}
    (h : ctxMaterials materials = some rs) : rs.length = materials.length := by
  induction materials generalizing rs with
  | nil => simp [ctxMaterials] at h; simp [← h]
  | cons m ms ih =>
    rw [ctxMaterials] at h
    cases h1 : rmaterialOf m <;> rw [h1] at h
    · exact absurd h (by simp)
    · cases h2 : ctxMaterials ms <;> rw [h2] at h
      · exact absurd h (by simp)
      · cases h; simp [ih h2]

theorem ctxMaterials_get {materials : List Material} {rs : List RMaterial}
    (h : ctxMaterials materials = some rs) (i : Nat) (hi : i < materials.length) :
    ∃ hi' : i < rs.length,
      rmaterialOf (materials.get ⟨i, hi⟩) = some (rs.get ⟨i, hi'⟩) := by
  induction materials generalizing rs i with
  | nil => simp at hi
  | cons m ms ih =>
    rw [ctxMaterials] at h
    cases h1 : rmaterialOf m <;> rw [h1] at h
    · exact absurd h (by simp)
    · cases h2 : ctxMaterials ms <;> rw [h2] at h
      · exact absurd h (by simp)
      · cases h
        cases i with
        | zero => exact ⟨by simp, by simpa using h1⟩
        | succ i' =>
          obtain ⟨hi', hx⟩ := ih h2 i' (by simpa using hi)
          exact ⟨by simpa using Nat.succ_lt_succ hi', by simpa using hx⟩

/-- Inversion of a successful `ctxOf`. -/
theorem ctxOf_inv {scene : Scene} {seed ns mb : Int} {nc : Nat} {ctx : Ctx}
    (h : ctxOf scene seed ns mb nc = some ctx) :
    ctxShapes scene.shapes = some ctx.shapes ∧
    ctxMaterials scene.materials = some ctx.materials ∧
    ctx.area_lights = scene.area_lights.map rlightOf ∧
    renvOf scene.envmap = some ctx.envmap ∧
    ctx.seed = seed ∧ ctx.num_samples = (ns, ns) ∧ ctx.num_channels = nc := by
  rw [ctxOf] at h
  cases h1 : ctxShapes scene.shapes <;> rw [h1] at h
  · exact absurd h (by simp)
  · cases h2 : ctxMaterials scene.materials <;> rw [h2] at h
    · exact absurd h (by simp)
    · cases h3 : renvOf scene.envmap <;> rw [h3] at h
      · exact absurd h (by simp)
      · cases h; simp

/-! ## Positional access into the backward gradient list -/

theorem d_shape_slots_length (s : RShape) : (d_shape_slots s).length = 6 := by
  simp [d_shape_slots]

theorem d_material_slots_length (m : RMaterial) : (d_material_slots m).length = 7 := by
  simp [d_material_slots]

theorem d_light_slots_length (l : RAreaLight) : (d_light_slots l).length = 3 := by
  simp [d_light_slots]

theorem d_envmap_slots_length (e : Option RTexture) : (d_envmap_slots e).length = 7 := by
  cases e <;> simp [d_envmap_slots]

/-- Shape block of the backward list: slot `12 + 6*i + j`. -/
theorem bwd_get_shape (st : ModuleState) (g : Tensor) (ctx : Ctx) (i j : Nat)
    (hi : i < ctx.shapes.length) (hj : j < 6) :
    (backward st g ctx).ret_list[12 + (6 * i + j)]? =
      (d_shape_slots (ctx.shapes.get ⟨i, hi⟩))[j]? := by
  show (headerGrads ++ _)[12 + (6 * i + j)]? = _
  rw [show (12 : Nat) + (6 * i + j) = headerGrads.length + (6 * i + j) from rfl,
    append_getElem?_add]
  exact flatArgs_pick d_shape_slots 6 d_shape_slots_length _ _ i j hi hj

/-- Material block of the backward list: slot `12 + 6*S + 7*j + o`. -/
theorem bwd_get_material (st : ModuleState) (g : Tensor) (ctx : Ctx) (j o : Nat)
    (hj : j < ctx.materials.length) (ho : o < 7) :
    (backward st g ctx).ret_list[12 + (6 * ctx.shapes.length + (7 * j + o))]? =
      (d_material_slots (ctx.materials.get ⟨j, hj⟩))[o]? := by
  show (headerGrads ++ _)[12 + (6 * ctx.shapes.length + (7 * j + o))]? = _
  rw [show (12 : Nat) + (6 * ctx.shapes.length + (7 * j + o)) =
      headerGrads.length + (6 * ctx.shapes.length + (7 * j + o)) from rfl,
    append_getElem?_add,
    flatArgs_skip d_shape_slots 6 d_shape_slots_length]
  exact flatArgs_pick d_material_slots 7 d_material_slots_length _ _ j o hj ho

/-- Area-light block of the backward list: slot `12 + 6*S + 7*M + 3*k + o`. -/
theorem bwd_get_light (st : ModuleState) (g : Tensor) (ctx : Ctx) (k o : Nat)
    (hk : k < ctx.area_lights.length) (ho : o < 3) :
    (backward st g ctx).ret_list[12 + (6 * ctx.shapes.length +
        (7 * ctx.materials.length + (3 * k + o)))]? =
      (d_light_slots (ctx.area_lights.get ⟨k, hk⟩))[o]? := by
  show (headerGrads ++ _)[_]? = _
  rw [show (12 : Nat) + (6 * ctx.shapes.length +
        (7 * ctx.materials.length + (3 * k + o))) =
      headerGrads.length + (6 * ctx.shapes.length +
        (7 * ctx.materials.length + (3 * k + o))) from rfl,
    append_getElem?_add,
    flatArgs_skip d_shape_slots 6 d_shape_slots_length,
    flatArgs_skip d_material_slots 7 d_material_slots_length]
  exact flatArgs_pick d_light_slots 3 d_light_slots_length _ _ k o hk ho

/-- Environment block of the backward list: slot `12 + 6*S + 7*M + 3*L + p`. -/
theorem bwd_get_envmap (st : ModuleState) (g : Tensor) (ctx : Ctx) (p : Nat)
    (hp : p < 7) :
    (backward st g ctx).ret_list[12 + (6 * ctx.shapes.length +
        (7 * ctx.materials.length + (3 * ctx.area_lights.length + p)))]? =
      (d_envmap_slots ctx.envmap)[p]? := by
  show (headerGrads ++ _)[_]? = _
  rw [show (12 : Nat) + (6 * ctx.shapes.length +
        (7 * ctx.materials.length + (3 * ctx.area_lights.length + p))) =
      headerGrads.length + (6 * ctx.shapes.length +
        (7 * ctx.materials.length + (3 * ctx.area_lights.length + p))) from rfl,
    append_getElem?_add,
    flatArgs_skip d_shape_slots 6 d_shape_slots_length,
    flatArgs_skip d_material_slots 7 d_material_slots_length,
    flatArgs_skip d_light_slots 3 d_light_slots_length]
  rw [List.getElem?_append_left (by rw [d_envmap_slots_length]; exact hp)]

/-- Tail of the backward list: slot `12 + 6*S + 7*M + 3*L + 7 + p`. -/
theorem bwd_get_tail (st : ModuleState) (g : Tensor) (ctx : Ctx) (p : Nat) :
    (backward st g ctx).ret_list[12 + (6 * ctx.shapes.length +
        (7 * ctx.materials.length + (3 * ctx.area_lights.length + (7 + p))))]? =
      (tailGrads ctx.num_channels)[p]? := by
  show (headerGrads ++ _)[_]? = _
  rw [show (12 : Nat) + (6 * ctx.shapes.length +
        (7 * ctx.materials.length + (3 * ctx.area_lights.length + (7 + p)))) =
      headerGrads.length + (6 * ctx.shapes.length +
        (7 * ctx.materials.length + (3 * ctx.area_lights.length + (7 + p)))) from rfl,
    append_getElem?_add,
    flatArgs_skip d_shape_slots 6 d_shape_slots_length,
    flatArgs_skip d_material_slots 7 d_material_slots_length,
    flatArgs_skip d_light_slots 3 d_light_slots_length]
  rw [show (7 : Nat) + p = (d_envmap_slots ctx.envmap).length + p from by
    rw [d_envmap_slots_length], append_getElem?_add]

/-! ## Effects of the light-id annotation pass -/

theorem setLightId_length (ss : List Shape) (sid : Nat) (lid : Int) :
    (setLightId ss sid lid).length = ss.length := by
  induction ss generalizing sid with
  | nil => simp [setLightId]
  | cons s ss ih =>
    cases sid with
    | zero => simp [setLightId]
    | succ n => simp [setLightId, ih]

theorem setLightId_getElem?_ne (ss : List Shape) (sid : Nat) (lid : Int) (j : Nat)
    (hne : j ≠ sid) : (setLightId ss sid lid)[j]? = ss[j]? := by
  induction ss generalizing sid j with
  | nil => simp [setLightId]
  | cons s ss ih =>
    cases sid with
    | zero =>
      cases j with
      | zero => exact absurd rfl hne
      | succ j' => simp [setLightId]
    | succ n =>
      cases j with
      | zero => simp [setLightId]
      | succ j' =>
        simp only [setLightId, List.getElem?_cons_succ]
        exact ih n j' (fun h => hne (by simp [h]))

theorem setLightId_getElem?_eq (ss : List Shape) (sid : Nat) (lid : Int) :
    (setLightId ss sid lid)[sid]? =
      (ss[sid]?).map (fun sh => { sh with light_id := lid }) := by
  induction ss generalizing sid with
  | nil => simp [setLightId]
  | cons s ss ih =>
    cases sid with
    | zero => simp [setLightId]
    | succ n => simp [setLightId, ih]

theorem annotateLightIds_length (shapes : List Shape) (lights : List AreaLight)
    (start : Nat) : (annotateLightIds shapes lights start).length = shapes.length := by
  induction lights generalizing shapes start with
  | nil => simp [annotateLightIds]
  | cons l ls ih => simp [annotateLightIds, ih, setLightId_length]

theorem annotateLightIds_getElem?_untouched (shapes : List Shape)
    (lights : List AreaLight) (start : Nat) (j : Nat)
    (h : ∀ l ∈ lights, l.shape_id ≠ j) :
    (annotateLightIds shapes lights start)[j]? = shapes[j]? := by
  induction lights generalizing shapes start with
  | nil => simp [annotateLightIds]
  | cons l ls ih =>
    rw [annotateLightIds, ih _ _ (fun x hx => h x (by simp [hx])),
      setLightId_getElem?_ne _ _ _ _ (fun hj => h l (by simp) hj.symm)]

/-- The annotation pass changes nothing a `light_id`-insensitive observer can
see. -/
theorem annotateLightIds_fields (f : Shape → α)
    (hf : ∀ sh lid, f { sh with light_id := lid } = f sh)
    (shapes : List Shape) (lights : List AreaLight) (start : Nat) (j : Nat) :
    ((annotateLightIds shapes lights start)[j]?).map f = (shapes[j]?).map f := by
  induction lights generalizing shapes start with
  | nil => simp [annotateLightIds]
  | cons l ls ih =>
    rw [annotateLightIds, ih]
    by_cases hj : j = l.shape_id
    · subst hj
      rw [setLightId_getElem?_eq]
      cases h2 : shapes[l.shape_id]? <;> simp [hf]
    · rw [setLightId_getElem?_ne _ _ _ _ hj]

/-- After the annotation pass, the shape owned by the `i`-th light carries
light id `start + i`, provided no shape is claimed by two lights and all
referenced shape ids are in range. -/
theorem annotateLightIds_light_id (shapes : List Shape) (lights : List AreaLight)
    (start : Nat)
    (hnodup : (lights.map AreaLight.shape_id).Nodup)
    (hrange : ∀ l ∈ lights, l.shape_id < shapes.length)
    (i : Nat) (hi : i < lights.length) :
    ((annotateLightIds shapes lights start)[(lights.get ⟨i, hi⟩).shape_id]?).map
        Shape.light_id = some ((start + i : Nat) : Int) := by
  induction lights generalizing shapes start i with
  | nil => simp at hi
  | cons l ls ih =>
    cases i with
    | zero =>
      rw [annotateLightIds]
      have huntouched : ∀ x ∈ ls, x.shape_id ≠ l.shape_id := by
        intro x hx hcontra
        rw [List.map_cons, List.nodup_cons] at hnodup
        exact hnodup.1 (hcontra ▸ List.mem_map_of_mem AreaLight.shape_id hx)
      rw [show (((l :: ls).get ⟨0, hi⟩)) = l from rfl,
        annotateLightIds_getElem?_untouched _ _ _ _ huntouched,
        setLightId_getElem?_eq]
      have hl : l.shape_id < shapes.length := hrange l (by simp)
      rw [List.getElem?_eq_getElem hl]
      simp
    | succ i' =>
      rw [annotateLightIds,
        show ((l :: ls).get ⟨i' + 1, hi⟩) = ls.get ⟨i', by simpa using hi⟩ from rfl]
      have := ih (setLightId shapes l.shape_id (start : Int)) (start + 1)
        (by rw [List.map_cons, List.nodup_cons] at hnodup; exact hnodup.2)
        (fun x hx => by rw [setLightId_length]; exact hrange x (by simp [hx]))
        i' (by simpa using hi)
      rw [this]
      congr 1
      push_cast
      ring

/-! ## Positional access into the serialized argument list -/

theorem shapeArgs_length (s : Shape) : (shapeArgs s).length = 6 := by
  simp [shapeArgs]

theorem materialArgs_length (m : Material) : (materialArgs m).length = 7 := by
  simp [materialArgs]

theorem lightArgs_length (l : AreaLight) : (lightArgs l).length = 3 := by
  simp [lightArgs]

theorem envmapArgs_length (e : Option EnvironmentMap) : (envmapArgs e).length = 7 := by
  cases e <;> simp [envmapArgs]

theorem serHeader_length (scene : Scene) : (serHeader scene).length = 11 := by
  simp [serHeader, cameraArgs]

/-- Total length of the serialized argument list:
`24 + 6*S + 7*M + 3*L + C`. -/
theorem serializeArgs_length (scene : Scene) (ns mb : Int) (ch : List Nat)
    (sty : Nat) (p s : Bool) :
    (serializeArgs scene ns mb ch sty p s).length =
      24 + 6 * scene.shapes.length + 7 * scene.materials.length +
        3 * scene.area_lights.length + ch.length := by
  simp [serializeArgs, serHeader_length,
    flatArgs_length shapeArgs 6 shapeArgs_length,
    flatArgs_length materialArgs 7 materialArgs_length,
    flatArgs_length lightArgs 3 lightArgs_length,
    envmapArgs_length]
  omega

/-- Total length of the backward gradient list:
`25 + 6*S + 7*M + 3*L + C`. -/
theorem backward_ret_length (st : ModuleState) (g : Tensor) (ctx : Ctx) :
    (backward st g ctx).ret_list.length =
      25 + 6 * ctx.shapes.length + 7 * ctx.materials.length +
        3 * ctx.area_lights.length + ctx.num_channels := by
  show (headerGrads ++ _).length = _
  simp [headerGrads,
    flatArgs_length d_shape_slots 6 d_shape_slots_length,
    flatArgs_length d_material_slots 7 d_material_slots_length,
    flatArgs_length d_light_slots 3 d_light_slots_length,
    d_envmap_slots_length, tailGrads]
  omega

/-- Header of the serialized list: slots 0-10. -/
theorem ser_get_header (scene : Scene) (ns mb : Int) (ch : List Nat) (sty : Nat)
    (p s : Bool) (q : Nat) (hq : q < 11) :
    (serializeArgs scene ns mb ch sty p s)[q]? = (serHeader scene)[q]? := by
  show (serHeader scene ++ _)[q]? = _
  exact List.getElem?_append_left (by rw [serHeader_length]; exact hq)

/-- Shape block of the serialized list: slot `11 + 6*i + j`. -/
theorem ser_get_shape (scene : Scene) (ns mb : Int) (ch : List Nat) (sty : Nat)
    (p s : Bool) (i j : Nat) (hi : i < scene.shapes.length) (hj : j < 6) :
    (serializeArgs scene ns mb ch sty p s)[11 + (6 * i + j)]? =
      (shapeArgs (scene.shapes.get ⟨i, hi⟩))[j]? := by
  show (serHeader scene ++ _)[11 + (6 * i + j)]? = _
  rw [show (11 : Nat) + (6 * i + j) = (serHeader scene).length + (6 * i + j) from by
    rw [serHeader_length], append_getElem?_add]
  exact flatArgs_pick shapeArgs 6 shapeArgs_length _ _ i j hi hj

/-- Environment block of the serialized list: slot `11 + 6*S + 7*M + 3*L + p`. -/
theorem ser_get_envmap (scene : Scene) (ns mb : Int) (ch : List Nat) (sty : Nat)
    (p s : Bool) (q : Nat) (hq : q < 7) :
    (serializeArgs scene ns mb ch sty p s)[11 + (6 * scene.shapes.length +
        (7 * scene.materials.length + (3 * scene.area_lights.length + q)))]? =
      (envmapArgs scene.envmap)[q]? := by
  show (serHeader scene ++ _)[_]? = _
  rw [show (11 : Nat) + (6 * scene.shapes.length +
        (7 * scene.materials.length + (3 * scene.area_lights.length + q))) =
      (serHeader scene).length + (6 * scene.shapes.length +
        (7 * scene.materials.length + (3 * scene.area_lights.length + q))) from by
    rw [serHeader_length], append_getElem?_add,
    flatArgs_skip shapeArgs 6 shapeArgs_length,
    flatArgs_skip materialArgs 7 materialArgs_length,
    flatArgs_skip lightArgs 3 lightArgs_length]
  rw [List.getElem?_append_left (by rw [envmapArgs_length]; exact hq)]

/-! ## Access into the backward tail -/

theorem tailGrads_getElem?_lt3 (n q : Nat) (hq : q < 3) :
    (tailGrads n)[q]? = some none := by
  interval_cases q <;> simp [tailGrads]

theorem tailGrads_getElem?_channel (n c : Nat) (hc : c < n) :
    (tailGrads n)[3 + c]? = some none := by
  rw [tailGrads, List.append_assoc,
    show (3 : Nat) + c = ([none, none, none] : List (Option Tensor)).length + c
      from rfl, append_getElem?_add,
    List.getElem?_append_left (by simpa using hc), List.getElem?_replicate_of_lt hc]

theorem tailGrads_getElem?_last (n q : Nat) (hq : q < 3) :
    (tailGrads n)[3 + n + q]? = some none := by
  rw [tailGrads, List.append_assoc,
    show (3 : Nat) + n + q = ([none, none, none] : List (Option Tensor)).length +
      (n + q) from by simp only [List.length_cons, List.length_nil]; omega,
    append_getElem?_add,
    show (n : Nat) + q = (List.replicate n (none : Option Tensor)).length + q from by
      simp, append_getElem?_add]
  interval_cases q <;> rfl

/-! ## Inversion helpers -/

/-- Any successful `forward` stores its `seed` argument unchanged into the
retained context (it becomes `options.seed`). -/
theorem forward_seed {seed : Int} {args : List Arg} {ctx : Ctx}
    (h : forward seed args = some ctx) : ctx.seed = seed := by
  rw [forward] at h
  repeat' split at h
  all_goals cases h
  all_goals rfl

/-- Decomposition of a successful run of `forward` on `serialize_scene`'s
output. -/
theorem forward_serialize_inv {scene : Scene} {ns mb : Int} {ch : List Nat}
    {sty : Nat} {p s : Bool} {seed : Int} {ctx : Ctx}
    (h : forward seed (serialize_scene scene ns mb ch sty p s).2 = some ctx) :
    ctxShapes (annotateLightIds scene.shapes scene.area_lights 0) = some ctx.shapes ∧
    ctxMaterials scene.materials = some ctx.materials ∧
    ctx.area_lights = scene.area_lights.map rlightOf ∧
    renvOf scene.envmap = some ctx.envmap ∧
    ctx.seed = seed ∧ ctx.num_samples = (ns, ns) ∧ ctx.num_channels = ch.length := by
  have h' : forward seed (serializeArgs
      { scene with shapes := annotateLightIds scene.shapes scene.area_lights 0 }
      ns mb ch sty p s) = some ctx := h
  rw [forward_serializeArgs] at h'
  simpa using ctxOf_inv h'

/-- Inversion of a successful per-material reconstruction. -/
theorem rmaterialOf_inv {m : Material} {rm : RMaterial}
    (h : rmaterialOf m = some rm) :
    makeTexture3 m.diffuse_reflectance.mipmap = some rm.diffuse ∧
    makeTexture3 m.specular_reflectance.mipmap = some rm.specular ∧
    makeTexture1 m.roughness.mipmap = some rm.roughness := by
  rw [rmaterialOf] at h
  cases h1 : makeTexture3 m.diffuse_reflectance.mipmap <;> rw [h1] at h
  · exact absurd h (by simp)
  · cases h2 : makeTexture3 m.specular_reflectance.mipmap <;> rw [h2] at h
    · exact absurd h (by simp)
    · cases h3 : makeTexture1 m.roughness.mipmap <;> rw [h3] at h
      · exact absurd h (by simp)
      · cases h; exact ⟨rfl, rfl, rfl⟩

/-- Inversion of a successful per-shape reconstruction. -/
theorem rshapeOf_inv {sh : Shape} {r : RShape} (h : rshapeOf sh = some r) :
    (∀ n rest, sh.vertices.dims = n :: rest → r.num_vertices = n) ∧
    (r.has_uvs = match sh.uvs with
                 | none => false
                 | some u => !(is_empty_tensor u)) ∧
    (r.has_normals = match sh.normals with
                     | none => false
                     | some u => !(is_empty_tensor u)) := by
  rw [rshapeOf] at h
  cases h1 : sh.vertices.dims with
  | nil => rw [h1] at h; exact absurd h (by simp)
  | cons nv nvrest =>
    cases h2 : sh.indices.dims with
    | nil => rw [h1, h2] at h; exact absurd h (by simp)
    | cons nt ntrest =>
      rw [h1, h2] at h
      cases h
      refine ⟨?_, rfl, rfl⟩
      intro n rest hdims
      injection hdims with ha _

/-! ## Concrete scenes used as witnesses -/

/-- A minimal camera. -/
def cam0 : Camera := ⟨⟨[3]⟩, ⟨[3]⟩, ⟨[3]⟩, ⟨[3, 3]⟩, ⟨[3, 3]⟩, 1, (64, 64), 0⟩

/-- Empty scene: no shapes, materials, lights or envmap. -/
def scene0 : Scene := ⟨cam0, [], [], [], none⟩

/-- A shape with 4 vertices, 2 triangles, UVs and normals. -/
def shape0 : Shape := ⟨⟨[4, 3]⟩, ⟨[2, 3]⟩, some ⟨[4, 2]⟩, some ⟨[4, 3]⟩, 0, -1⟩

/-- A shape with 5 vertices, 3 triangles, no UVs, no normals. -/
def shape1 : Shape := ⟨⟨[5, 3]⟩, ⟨[3, 3]⟩, none, none, 1, -1⟩

/-- A material whose three textures are all constants. -/
def mat0 : Material := ⟨⟨⟨[3]⟩, ⟨[2]⟩⟩, ⟨⟨[3]⟩, ⟨[2]⟩⟩, ⟨⟨[1]⟩, ⟨[2]⟩⟩, false⟩

/-- A material with mipmapped diffuse and roughness, constant specular. -/
def mat1 : Material := ⟨⟨⟨[2, 8, 16, 3]⟩, ⟨[2]⟩⟩, ⟨⟨[3]⟩, ⟨[2]⟩⟩,
  ⟨⟨[2, 8, 16, 1]⟩, ⟨[2]⟩⟩, true⟩

/-- One area light attached to shape 1. -/
def light0 : AreaLight := ⟨1, ⟨[3]⟩, false⟩

/-- Two shapes, two materials, one light, no envmap. -/
def scene1 : Scene := ⟨cam0, [shape0, shape1], [mat0, mat1], [light0], none⟩

/-- An environment map with a 7-level 64×32 radiance mipmap. -/
def env0 : EnvironmentMap := ⟨⟨⟨[7, 32, 64, 3]⟩, ⟨[2]⟩⟩, ⟨[4, 4]⟩, ⟨[4, 4]⟩,
  ⟨[32, 64]⟩, ⟨[32, 64]⟩, 1⟩

/-- Empty scene with an environment map. -/
def sceneE : Scene := ⟨cam0, [], [], [], some env0⟩

/-- An arbitrary incoming image gradient. -/
def g0 : Tensor := ⟨[64, 64, 3]⟩

/-- Context retained by `forward` for `scene0` (seed 0, 1 sample, 1 bounce,
one channel). -/
def ctx0 : Ctx := ⟨[], [], [], none, 0, 1, (1, 1), 1⟩

/-- Context retained by `forward` for `scene1` (seed 7, 4 samples,
2 bounces, one channel). -/
def ctx1 : Ctx :=
  ⟨[⟨4, 2, true, true, 0, -1⟩, ⟨5, 3, false, false, 1, 0⟩],
   [⟨⟨0, 0, 0⟩, ⟨0, 0, 0⟩, ⟨0, 0, 0⟩, false⟩,
    ⟨⟨16, 8, 2⟩, ⟨0, 0, 0⟩, ⟨16, 8, 2⟩, true⟩],
   [⟨1, false⟩], none, 7, 2, (4, 4), 1⟩

/-- Context retained by `forward` for `sceneE`. -/
def ctxE : Ctx := ⟨[], [], [], some ⟨64, 32, 7⟩, 0, 1, (1, 1), 1⟩

/-! ## Claims -/

/-- Header of the backward list: slots 0–11. -/
theorem bwd_get_header (st : ModuleState) (g : Tensor) (ctx : Ctx) (q : Nat)
    (hq : q < 12) :
    (backward st g ctx).ret_list[q]? = headerGrads[q]? := by
  show (headerGrads ++ _)[q]? = _
  exact List.getElem?_append_left (by simpa [headerGrads] using hq)

/-- C2: every backward slot corresponding to a flattened count, index, flag
or tag holds the no-gradient marker: the three counts (slots 1–3), clip-near,
resolution and camera-type (slots 9–11), per-shape triangle indices, material
id and light id, per-material two-sided flag, per-light shape id and
two-sided flag, and the tail's sample count, max bounces, channel count,
channel tags, sampler tag and the two edge-sampling flags. -/
theorem C2_nondiff_slots_are_markers (scene : Scene) (ns mb : Int)
    (ch : List Nat) (sty : Nat) (p s : Bool) (seed : Int) (ctx : Ctx)
    (st : ModuleState) (g : Tensor)
    (h : forward seed (serialize_scene scene ns mb ch sty p s).2 = some ctx) :
    ((backward st g ctx).ret_list[1]? = some none ∧
     (backward st g ctx).ret_list[2]? = some none ∧
     (backward st g ctx).ret_list[3]? = some none) ∧
    ((backward st g ctx).ret_list[9]? = some none ∧
     (backward st g ctx).ret_list[10]? = some none ∧
     (backward st g ctx).ret_list[11]? = some none) ∧
    (∀ i, i < scene.shapes.length →
      (backward st g ctx).ret_list[12 + (6 * i + 1)]? = some none ∧
      (backward st g ctx).ret_list[12 + (6 * i + 4)]? = some none ∧
      (backward st g ctx).ret_list[12 + (6 * i + 5)]? = some none) ∧
    (∀ j, j < scene.materials.length →
      (backward st g ctx).ret_list[12 +
        (6 * scene.shapes.length + (7 * j + 6))]? = some none) ∧
    (∀ k, k < scene.area_lights.length →
      (backward st g ctx).ret_list[12 + (6 * scene.shapes.length +
        (7 * scene.materials.length + (3 * k + 0)))]? = some none ∧
      (backward st g ctx).ret_list[12 + (6 * scene.shapes.length +
        (7 * scene.materials.length + (3 * k + 2)))]? = some none) ∧
    ((backward st g ctx).ret_list[12 + (6 * scene.shapes.length +
        (7 * scene.materials.length + (3 * scene.area_lights.length +
        (7 + 0))))]? = some none ∧
     (backward st g ctx).ret_list[12 + (6 * scene.shapes.length +
        (7 * scene.materials.length + (3 * scene.area_lights.length +
        (7 + 1))))]? = some none ∧
     (backward st g ctx).ret_list[12 + (6 * scene.shapes.length +
        (7 * scene.materials.length + (3 * scene.area_lights.length +
        (7 + 2))))]? = some none) ∧
    (∀ c, c < ch.length →
      (backward st g ctx).ret_list[12 + (6 * scene.shapes.length +
        (7 * scene.materials.length + (3 * scene.area_lights.length +
        (7 + (3 + c)))))]? = some none) ∧
    ((backward st g ctx).ret_list[12 + (6 * scene.shapes.length +
        (7 * scene.materials.length + (3 * scene.area_lights.length +
        (7 + (3 + ch.length + 0)))))]? = some none ∧
     (backward st g ctx).ret_list[12 + (6 * scene.shapes.length +
        (7 * scene.materials.length + (3 * scene.area_lights.length +
        (7 + (3 + ch.length + 1)))))]? = some none ∧
     (backward st g ctx).ret_list[12 + (6 * scene.shapes.length +
        (7 * scene.materials.length + (3 * scene.area_lights.length +
        (7 + (3 + ch.length + 2)))))]? = some none) := by
  obtain ⟨hsh, hmat, hlights, henv, hseed, hnum, hnc⟩ := forward_serialize_inv h
  have hS : ctx.shapes.length = scene.shapes.length := by
    rw [ctxShapes_length hsh, annotateLightIds_length]
  have hM : ctx.materials.length = scene.materials.length :=
    ctxMaterials_length hmat
  have hL : ctx.area_lights.length = scene.area_lights.length := by
    rw [hlights, List.length_map]
  rw [← hS, ← hM, ← hL, ← hnc]
  refine ⟨⟨?_, ?_, ?_⟩, ⟨?_, ?_, ?_⟩, ?_, ?_, ?_, ⟨?_, ?_, ?_⟩, ?_, ⟨?_, ?_, ?_⟩⟩
  · rw [bwd_get_header st g ctx 1 (by omega)]; rfl
  · rw [bwd_get_header st g ctx 2 (by omega)]; rfl
  · rw [bwd_get_header st g ctx 3 (by omega)]; rfl
  · rw [bwd_get_header st g ctx 9 (by omega)]; rfl
  · rw [bwd_get_header st g ctx 10 (by omega)]; rfl
  · rw [bwd_get_header st g ctx 11 (by omega)]; rfl
  · intro i hi
    refine ⟨?_, ?_, ?_⟩
    · rw [bwd_get_shape st g ctx i 1 hi (by omega)]; simp [d_shape_slots]
    · rw [bwd_get_shape st g ctx i 4 hi (by omega)]; simp [d_shape_slots]
    · rw [bwd_get_shape st g ctx i 5 hi (by omega)]; simp [d_shape_slots]
  · intro j hj
    rw [bwd_get_material st g ctx j 6 hj (by omega)]; simp [d_material_slots]
  · intro k hk
    constructor
    · rw [bwd_get_light st g ctx k 0 hk (by omega)]; simp [d_light_slots]
    · rw [bwd_get_light st g ctx k 2 hk (by omega)]; simp [d_light_slots]
  · rw [bwd_get_tail st g ctx 0]; exact tailGrads_getElem?_lt3 _ 0 (by omega)
  · rw [bwd_get_tail st g ctx 1]; exact tailGrads_getElem?_lt3 _ 1 (by omega)
  · rw [bwd_get_tail st g ctx 2]; exact tailGrads_getElem?_lt3 _ 2 (by omega)
  · intro c hc
    rw [bwd_get_tail st g ctx (3 + c)]
    exact tailGrads_getElem?_channel _ _ hc
  · rw [bwd_get_tail st g ctx (3 + ctx.num_channels + 0)]
    exact tailGrads_getElem?_last _ 0 (by omega)
  · rw [bwd_get_tail st g ctx (3 + ctx.num_channels + 1)]
    exact tailGrads_getElem?_last _ 1 (by omega)
  · rw [bwd_get_tail st g ctx (3 + ctx.num_channels + 2)]
    exact tailGrads_getElem?_last _ 2 (by omega)

/-- C2 (witness): on `scene1` (2 shapes, 2 materials, 1 light, 1 channel),
the light-id slot of shape 0, the two-sided slot of material 1, the shape-id
slot of the light, and the final edge-sampling slot are all markers. -/
theorem C2_witness :
    (backward initState g0 ctx1).ret_list[12 + (6 * 0 + 5)]? = some none ∧
    (backward initState g0 ctx1).ret_list[12 + (6 * 2 + (7 * 1 + 6))]? =
      some none ∧
    (backward initState g0 ctx1).ret_list[12 + (6 * 2 + (7 * 2 +
      (3 * 0 + 0)))]? = some none ∧
    (backward initState g0 ctx1).ret_list[12 + (6 * 2 + (7 * 2 + (3 * 1 +
      (7 + (3 + 1 + 2)))))]? = some none := by
  have h := C2_nondiff_slots_are_markers scene1 4 2 [0] 0 true false 7 ctx1
    initState g0 (by decide)
  exact ⟨(h.2.2.1 0 (by decide)).2.2, h.2.2.2.1 1 (by decide),
    (h.2.2.2.2.1 0 (by decide)).1, h.2.2.2.2.2.2.2.2.2⟩

/-- C3: each differentiable backward slot is a zero buffer shape-matched to
its forward tensor: a shape with vertex buffer (N,3) gets a vertex gradient
of shape (N,3), a present non-empty UV buffer gets a (N,2) gradient and a
present non-empty normal buffer a (N,3) gradient, while absent UV/normal
buffers get the marker; a constant diffuse/specular value of shape (3,) gets
a (3,) gradient and a mipmapped one of shape (L,H,W,3) a (L,H,W,3) gradient;
every light intensity gets a (3,) gradient. -/
theorem C3_diff_slot_shapes (scene : Scene) (ns mb : Int) (ch : List Nat)
    (sty : Nat) (p s : Bool) (seed : Int) (ctx : Ctx) (st : ModuleState)
    (g : Tensor)
    (h : forward seed (serialize_scene scene ns mb ch sty p s).2 = some ctx) :
    (∀ i sh n, (serialize_scene scene ns mb ch sty p s).1.shapes[i]? = some sh →
      sh.vertices.dims = [n, 3] →
      (backward st g ctx).ret_list[12 + (6 * i + 0)]? = some (some ⟨[n, 3]⟩)) ∧
    (∀ i sh n u,
      (serialize_scene scene ns mb ch sty p s).1.shapes[i]? = some sh →
      sh.vertices.dims = [n, 3] → sh.uvs = some u → is_empty_tensor u = false →
      (backward st g ctx).ret_list[12 + (6 * i + 2)]? = some (some ⟨[n, 2]⟩)) ∧
    (∀ i sh n u,
      (serialize_scene scene ns mb ch sty p s).1.shapes[i]? = some sh →
      sh.vertices.dims = [n, 3] → sh.normals = some u →
      is_empty_tensor u = false →
      (backward st g ctx).ret_list[12 + (6 * i + 3)]? = some (some ⟨[n, 3]⟩)) ∧
    (∀ i sh, (serialize_scene scene ns mb ch sty p s).1.shapes[i]? = some sh →
      sh.uvs = none →
      (backward st g ctx).ret_list[12 + (6 * i + 2)]? = some none) ∧
    (∀ i sh, (serialize_scene scene ns mb ch sty p s).1.shapes[i]? = some sh →
      sh.normals = none →
      (backward st g ctx).ret_list[12 + (6 * i + 3)]? = some none) ∧
    (∀ j m, scene.materials[j]? = some m →
      (m.diffuse_reflectance.mipmap.dims = [3] →
        (backward st g ctx).ret_list[12 + (6 * scene.shapes.length +
          (7 * j + 0))]? = some (some ⟨[3]⟩)) ∧
      (m.specular_reflectance.mipmap.dims = [3] →
        (backward st g ctx).ret_list[12 + (6 * scene.shapes.length +
          (7 * j + 2))]? = some (some ⟨[3]⟩)) ∧
      (∀ l hh w, 0 < w → m.diffuse_reflectance.mipmap.dims = [l, hh, w, 3] →
        (backward st g ctx).ret_list[12 + (6 * scene.shapes.length +
          (7 * j + 0))]? = some (some ⟨[l, hh, w, 3]⟩)) ∧
      (∀ l hh w, 0 < w → m.specular_reflectance.mipmap.dims = [l, hh, w, 3] →
        (backward st g ctx).ret_list[12 + (6 * scene.shapes.length +
          (7 * j + 2))]? = some (some ⟨[l, hh, w, 3]⟩))) ∧
    (∀ k, k < scene.area_lights.length →
      (backward st g ctx).ret_list[12 + (6 * scene.shapes.length +
        (7 * scene.materials.length + (3 * k + 1)))]? =
        some (some ⟨[3]⟩)) := by
  obtain ⟨hsh, hmat, hlights, henv, hseed, hnum, hnc⟩ := forward_serialize_inv h
  have hS : ctx.shapes.length = scene.shapes.length := by
    rw [ctxShapes_length hsh, annotateLightIds_length]
  have hM : ctx.materials.length = scene.materials.length :=
    ctxMaterials_length hmat
  have hL : ctx.area_lights.length = scene.area_lights.length := by
    rw [hlights, List.length_map]
  have hshapes1 : (serialize_scene scene ns mb ch sty p s).1.shapes =
      annotateLightIds scene.shapes scene.area_lights 0 := rfl
  -- Turn a successful shape lookup into the matching reconstructed handle.
  have shapeFact : ∀ i sh,
      (annotateLightIds scene.shapes scene.area_lights 0)[i]? = some sh →
      ∃ hi : i < ctx.shapes.length,
        rshapeOf sh = some (ctx.shapes.get ⟨i, hi⟩) := by
    intro i sh hA
    obtain ⟨hiA, hval⟩ := List.getElem?_eq_some_iff.1 hA
    obtain ⟨hi', hr⟩ := ctxShapes_get hsh i hiA
    exact ⟨hi', by rw [show sh = (annotateLightIds scene.shapes
      scene.area_lights 0).get ⟨i, hiA⟩ from hval.symm]; exact hr⟩
  have matFact : ∀ j m, scene.materials[j]? = some m →
      ∃ hj : j < ctx.materials.length,
        rmaterialOf m = some (ctx.materials.get ⟨j, hj⟩) := by
    intro j m hm
    obtain ⟨hjM, hval⟩ := List.getElem?_eq_some_iff.1 hm
    obtain ⟨hj', hr⟩ := ctxMaterials_get hmat j hjM
    exact ⟨hj', by
      rw [show m = scene.materials.get ⟨j, hjM⟩ from hval.symm]; exact hr⟩
  rw [hshapes1, ← hS, ← hM, ← hL]
  refine ⟨?_, ?_, ?_, ?_, ?_, ?_, ?_⟩
  · intro i sh n hA hdims
    obtain ⟨hi, hr⟩ := shapeFact i sh hA
    obtain ⟨hnv, _, _⟩ := rshapeOf_inv hr
    have hnum := hnv n [3] hdims
    simp only [List.get_eq_getElem] at hnum
    rw [bwd_get_shape st g ctx i 0 hi (by omega)]
    simp [d_shape_slots, hnum]
  · intro i sh n u hA hdims huvs hne
    obtain ⟨hi, hr⟩ := shapeFact i sh hA
    obtain ⟨hnv, huv, _⟩ := rshapeOf_inv hr
    rw [huvs] at huv
    have hnum := hnv n [3] hdims
    have huv2 : (ctx.shapes.get ⟨i, hi⟩).has_uvs = true := by
      rw [huv]; simp [hne]
    simp only [List.get_eq_getElem] at hnum huv2
    rw [bwd_get_shape st g ctx i 2 hi (by omega)]
    simp [d_shape_slots, hnum, huv2]
  · intro i sh n u hA hdims hnorms hne
    obtain ⟨hi, hr⟩ := shapeFact i sh hA
    obtain ⟨hnv, _, hnorm⟩ := rshapeOf_inv hr
    rw [hnorms] at hnorm
    have hnum := hnv n [3] hdims
    have hn2 : (ctx.shapes.get ⟨i, hi⟩).has_normals = true := by
      rw [hnorm]; simp [hne]
    simp only [List.get_eq_getElem] at hnum hn2
    rw [bwd_get_shape st g ctx i 3 hi (by omega)]
    simp [d_shape_slots, hnum, hn2]
  · intro i sh hA huvs
    obtain ⟨hi, hr⟩ := shapeFact i sh hA
    obtain ⟨_, huv, _⟩ := rshapeOf_inv hr
    rw [huvs] at huv
    have huv2 : (ctx.shapes.get ⟨i, hi⟩).has_uvs = false := by rw [huv]
    simp only [List.get_eq_getElem] at huv2
    rw [bwd_get_shape st g ctx i 2 hi (by omega)]
    simp [d_shape_slots, huv2]
  · intro i sh hA hnorms
    obtain ⟨hi, hr⟩ := shapeFact i sh hA
    obtain ⟨_, _, hnorm⟩ := rshapeOf_inv hr
    rw [hnorms] at hnorm
    have hn2 : (ctx.shapes.get ⟨i, hi⟩).has_normals = false := by rw [hnorm]
    simp only [List.get_eq_getElem] at hn2
    rw [bwd_get_shape st g ctx i 3 hi (by omega)]
    simp [d_shape_slots, hn2]
  · intro j m hm
    obtain ⟨hj, hr⟩ := matFact j m hm
    obtain ⟨hdt, hst, _⟩ := rmaterialOf_inv hr
    refine ⟨?_, ?_, ?_, ?_⟩
    · intro hdims
      have hc : makeTexture3 m.diffuse_reflectance.mipmap = some ⟨0, 0, 0⟩ := by
        simp [makeTexture3, get_tensor_dimension, hdims]
      rw [hc] at hdt
      injection hdt with h3
      have h4 : (ctx.materials.get ⟨j, hj⟩).diffuse = ⟨0, 0, 0⟩ := h3.symm
      simp only [List.get_eq_getElem] at h4
      rw [bwd_get_material st g ctx j 0 hj (by omega)]
      simp [d_material_slots, h4, d_texture3]
    · intro hdims
      have hc : makeTexture3 m.specular_reflectance.mipmap = some ⟨0, 0, 0⟩ := by
        simp [makeTexture3, get_tensor_dimension, hdims]
      rw [hc] at hst
      injection hst with h3
      have h4 : (ctx.materials.get ⟨j, hj⟩).specular = ⟨0, 0, 0⟩ := h3.symm
      simp only [List.get_eq_getElem] at h4
      rw [bwd_get_material st g ctx j 2 hj (by omega)]
      simp [d_material_slots, h4, d_texture3]
    · intro l hh w hw hdims
      have hc : makeTexture3 m.diffuse_reflectance.mipmap = some ⟨w, hh, l⟩ := by
        simp [makeTexture3, get_tensor_dimension, hdims]
      rw [hc] at hdt
      injection hdt with h3
      have h4 : (ctx.materials.get ⟨j, hj⟩).diffuse = ⟨w, hh, l⟩ := h3.symm
      simp only [List.get_eq_getElem] at h4
      rw [bwd_get_material st g ctx j 0 hj (by omega)]
      simp [d_material_slots, h4, d_texture3, hw.ne']
    · intro l hh w hw hdims
      have hc : makeTexture3 m.specular_reflectance.mipmap = some ⟨w, hh, l⟩ := by
        simp [makeTexture3, get_tensor_dimension, hdims]
      rw [hc] at hst
      injection hst with h3
      have h4 : (ctx.materials.get ⟨j, hj⟩).specular = ⟨w, hh, l⟩ := h3.symm
      simp only [List.get_eq_getElem] at h4
      rw [bwd_get_material st g ctx j 2 hj (by omega)]
      simp [d_material_slots, h4, d_texture3, hw.ne']
  · intro k hk
    rw [bwd_get_light st g ctx k 1 hk (by omega)]
    simp [d_light_slots]

/-- C1 (counterexample): the claim `len(serialize_scene(S, opts)) ==
len(backward(grad_img))` is false — already on the empty scene the backward
list has 25 + 1 = 26 entries against 25 serialized arguments, because
`backward` prepends a `None` slot for the `seed` argument of `render`, which
`serialize_scene` does not produce. -/
theorem C1_counterexample :
    forward 0 (serialize_scene scene0 1 1 [0] 0 true true).2 = some ctx0 ∧
    ¬ (serialize_scene scene0 1 1 [0] 0 true true).2.length =
        (backward initState g0 ctx0).ret_list.length := by
  constructor
  · decide
  · decide

/-- C1 (amended): for every scene and options, the backward gradient list has
exactly one more entry than `serialize_scene`'s flattened list: the extra
leading entry is the no-gradient marker for the integer seed, so
`len(backward) = len(serialize_scene) + 1`. -/
theorem C1_backward_length (scene : Scene) (ns mb : Int) (ch : List Nat)
    (sty : Nat) (p s : Bool) (seed : Int) (ctx : Ctx) (st : ModuleState)
    (g : Tensor)
    (h : forward seed (serialize_scene scene ns mb ch sty p s).2 = some ctx) :
    (backward st g ctx).ret_list.length =
      (serialize_scene scene ns mb ch sty p s).2.length + 1 := by
  obtain ⟨hsh, hmat, hlights, henv, hseed, hnum, hnc⟩ := forward_serialize_inv h
  have hS : ctx.shapes.length = scene.shapes.length := by
    rw [ctxShapes_length hsh, annotateLightIds_length]
  have hM : ctx.materials.length = scene.materials.length :=
    ctxMaterials_length hmat
  have hL : ctx.area_lights.length = scene.area_lights.length := by
    rw [hlights, List.length_map]
  have hser : (serialize_scene scene ns mb ch sty p s).2 =
      serializeArgs { scene with
        shapes := annotateLightIds scene.shapes scene.area_lights 0 }
        ns mb ch sty p s := rfl
  rw [hser, serializeArgs_length, backward_ret_length]
  simp only [annotateLightIds_length] at *
  omega

/-- C1 (witness for the amended theorem): the relation holds concretely on
the empty scene. -/
theorem C1_witness :
    (backward initState g0 ctx0).ret_list.length =
      (serialize_scene scene0 1 1 [0] 0 true true).2.length + 1 :=
  C1_backward_length scene0 1 1 [0] 0 true true 0 ctx0 initState g0 (by decide)

/-- C6: texture reconstruction dispatches on tensor rank alone: a rank-1
tensor yields a constant texture (zero width/height/levels); a rank-4 tensor
yields a mipmap whose levels/height/width come from its first three
dimensions; a 1-channel (roughness) texture of rank other than 1 is asserted
to have rank exactly 4, so any other rank fails. -/
theorem C6_rank_dispatch :
    (∀ t : Tensor, get_tensor_dimension t = 1 →
      makeTexture3 t = some ⟨0, 0, 0⟩ ∧ makeTexture1 t = some ⟨0, 0, 0⟩) ∧
    (∀ (t : Tensor) (l h w c : Nat), t.dims = [l, h, w, c] →
      makeTexture3 t = some ⟨w, h, l⟩ ∧ makeTexture1 t = some ⟨w, h, l⟩) ∧
    (∀ t : Tensor, get_tensor_dimension t ≠ 1 → get_tensor_dimension t ≠ 4 →
      makeTexture1 t = none) := by
  refine ⟨?_, ?_, ?_⟩
  · intro t h1
    constructor <;> simp [makeTexture3, makeTexture1, h1]
  · intro t l h w c hdims
    constructor <;>
      simp [makeTexture3, makeTexture1, get_tensor_dimension, hdims]
  · intro t h1 h4
    simp [makeTexture1, h1, h4]

/-- C6 (witness): concrete rank-1, rank-4 and rank-2 tensors. -/
theorem C6_witness :
    makeTexture3 ⟨[3]⟩ = some ⟨0, 0, 0⟩ ∧
    makeTexture1 ⟨[2, 8, 16, 1]⟩ = some ⟨16, 8, 2⟩ ∧
    makeTexture1 ⟨[4, 4]⟩ = none :=
  ⟨(C6_rank_dispatch.1 ⟨[3]⟩ rfl).1,
   (C6_rank_dispatch.2.1 ⟨[2, 8, 16, 1]⟩ 2 8 16 1 rfl).2,
   C6_rank_dispatch.2.2 ⟨[4, 4]⟩ (by decide) (by decide)⟩

/-- C7: the correlated-random-number opt-in does NOT take effect.  The claim
says `get_use_correlated_random_number()` returns `v` after
`set_use_correlated_random_number(v)`; but the setter assigns the local
`use_gpu` instead of the declared global, so after `set(True)` the getter
still returns `False` — the code contradicts the spec's stated intent (the
spec itself flags this assignment to the wrong variable name as a known
bug). -/
theorem C7_set_toggle_is_noop :
    get_use_correlated_random_number
        (set_use_correlated_random_number initState true) = false ∧
    ∀ (st : ModuleState) (v : Bool),
      set_use_correlated_random_number st v = st :=
  ⟨rfl, fun _ _ => rfl⟩

/-- C8: in a backward invocation, when `get_use_correlated_random_number()`
is false the adjoint engine call uses `options.seed + 1000003` (the forward
seed plus the fixed constant); when it is true the forward seed is used
unchanged. -/
theorem C8_backward_seed (seed : Int) (args : List Arg) (ctx : Ctx)
    (st : ModuleState) (g : Tensor) (h : forward seed args = some ctx) :
    (get_use_correlated_random_number st = false →
      (backward st g ctx).options_seed = seed + 1000003) ∧
    (get_use_correlated_random_number st = true →
      (backward st g ctx).options_seed = seed) := by
  have hseed : ctx.seed = seed := forward_seed h
  constructor <;> intro hb <;> simp [backward, hb, hseed]

/-- C8 (witness): concretely, with the default (decorrelated) state the
backward seed for `scene0`'s context is `0 + 1000003`. -/
theorem C8_witness :
    (backward initState g0 ctx0).options_seed = 0 + 1000003 :=
  (C8_backward_seed 0 (serialize_scene scene0 1 1 [0] 0 true true).2 ctx0
    initState g0 (by decide)).1 rfl

/-- C10: `render` consumes its first positional slot as the integer seed
(`seed, args = int(x[0]), x[1:]`), and the first element of every backward
gradient list is the no-gradient marker — the seed never receives a
gradient. -/
theorem C10_seed_slot :
    (∀ (seed : Int) (args : List Arg),
      render (Arg.intVal seed :: args) = forward seed args) ∧
    (∀ (st : ModuleState) (g : Tensor) (ctx : Ctx),
      (backward st g ctx).ret_list.head? = some none) :=
  ⟨fun _ _ => rfl, fun _ _ _ => rfl⟩

/-- C3 (witness): on `scene1`, shape 0's vertex and UV gradients are (4,3)
and (4,2), shape 1's UV slot is the marker, material 0's constant diffuse
gradient is (3,), material 1's mipmapped diffuse gradient is (2,8,16,3), and
the light intensity gradient is (3,). -/
theorem C3_witness :
    (backward initState g0 ctx1).ret_list[12]? = some (some ⟨[4, 3]⟩) ∧
    (backward initState g0 ctx1).ret_list[14]? = some (some ⟨[4, 2]⟩) ∧
    (backward initState g0 ctx1).ret_list[20]? = some none ∧
    (backward initState g0 ctx1).ret_list[24]? = some (some ⟨[3]⟩) ∧
    (backward initState g0 ctx1).ret_list[31]? = some (some ⟨[2, 8, 16, 3]⟩) ∧
    (backward initState g0 ctx1).ret_list[39]? = some (some ⟨[3]⟩) := by
  have h := C3_diff_slot_shapes scene1 4 2 [0] 0 true false 7 ctx1 initState g0
    (by decide)
  exact ⟨h.1 0 shape0 4 (by decide) rfl,
    h.2.1 0 shape0 4 ⟨[4, 2]⟩ (by decide) rfl rfl (by decide),
    h.2.2.2.1 1 { shape1 with light_id := 0 } (by decide) rfl,
    (h.2.2.2.2.2.1 0 mat0 (by decide)).1 rfl,
    (h.2.2.2.2.2.1 1 mat1 (by decide)).2.2.1 2 8 16 (by decide) rfl,
    h.2.2.2.2.2.2 0 (by decide)⟩

/-- C4 (counterexample): the claim says the 7 backward environment-map slots
of a scene WITH an envmap are all populated buffers, never a mix; but on
`sceneE` the first env slot holds a buffer while the second (uv-scale) holds
the `None` marker. -/
theorem C4_counterexample :
    forward 0 (serialize_scene sceneE 1 1 [0] 0 true true).2 = some ctxE ∧
    sceneE.envmap.isSome = true ∧
    ¬ (∀ q, q < 7 →
        (backward initState g0 ctxE).ret_list[12 + q]? ≠ some none) := by
  refine ⟨by decide, rfl, ?_⟩
  intro hall
  exact hall 1 (by omega) (by decide)

/-- C4 (amended): the 7 environment-map slots of the FORWARD flattened list
are all-or-nothing (7 real values with an envmap, 7 empty markers without).
In the BACKWARD list, a scene without an envmap gets 7 markers; a scene with
one gets a buffer only in the radiance-values slot (shape (L,H,W,3)) and the
world-to-env slot (shape (4,4)), while the uv-scale, env-to-world, two CDF
and pdf-norm slots hold markers. -/
theorem C4_envmap_blocks (scene : Scene) (ns mb : Int) (ch : List Nat)
    (sty : Nat) (p s : Bool) (seed : Int) (ctx : Ctx) (st : ModuleState)
    (g : Tensor)
    (h : forward seed (serialize_scene scene ns mb ch sty p s).2 = some ctx) :
    (scene.envmap = none →
      (∀ q, q < 7 →
        (serialize_scene scene ns mb ch sty p s).2[11 +
          (6 * scene.shapes.length + (7 * scene.materials.length +
          (3 * scene.area_lights.length + q)))]? = some Arg.empty) ∧
      (∀ q, q < 7 →
        (backward st g ctx).ret_list[12 + (6 * scene.shapes.length +
          (7 * scene.materials.length +
          (3 * scene.area_lights.length + q)))]? = some none)) ∧
    (∀ e, scene.envmap = some e →
      ((serialize_scene scene ns mb ch sty p s).2[11 +
          (6 * scene.shapes.length + (7 * scene.materials.length +
          (3 * scene.area_lights.length + 0)))]? =
            some (Arg.tensor e.values.mipmap) ∧
       (serialize_scene scene ns mb ch sty p s).2[11 +
          (6 * scene.shapes.length + (7 * scene.materials.length +
          (3 * scene.area_lights.length + 1)))]? =
            some (Arg.tensor e.values.uv_scale) ∧
       (serialize_scene scene ns mb ch sty p s).2[11 +
          (6 * scene.shapes.length + (7 * scene.materials.length +
          (3 * scene.area_lights.length + 2)))]? =
            some (Arg.tensor e.env_to_world) ∧
       (serialize_scene scene ns mb ch sty p s).2[11 +
          (6 * scene.shapes.length + (7 * scene.materials.length +
          (3 * scene.area_lights.length + 3)))]? =
            some (Arg.tensor e.world_to_env) ∧
       (serialize_scene scene ns mb ch sty p s).2[11 +
          (6 * scene.shapes.length + (7 * scene.materials.length +
          (3 * scene.area_lights.length + 4)))]? =
            some (Arg.tensor e.sample_cdf_ys) ∧
       (serialize_scene scene ns mb ch sty p s).2[11 +
          (6 * scene.shapes.length + (7 * scene.materials.length +
          (3 * scene.area_lights.length + 5)))]? =
            some (Arg.tensor e.sample_cdf_xs) ∧
       (serialize_scene scene ns mb ch sty p s).2[11 +
          (6 * scene.shapes.length + (7 * scene.materials.length +
          (3 * scene.area_lights.length + 6)))]? =
            some (Arg.floatVal e.pdf_norm)) ∧
      (is_empty_tensor e.values.mipmap = false →
        ∀ l hh w rest, e.values.mipmap.dims = l :: hh :: w :: rest →
          (backward st g ctx).ret_list[12 + (6 * scene.shapes.length +
            (7 * scene.materials.length +
            (3 * scene.area_lights.length + 0)))]? =
              some (some ⟨[l, hh, w, 3]⟩) ∧
          (backward st g ctx).ret_list[12 + (6 * scene.shapes.length +
            (7 * scene.materials.length +
            (3 * scene.area_lights.length + 1)))]? = some none ∧
          (backward st g ctx).ret_list[12 + (6 * scene.shapes.length +
            (7 * scene.materials.length +
            (3 * scene.area_lights.length + 2)))]? = some none ∧
          (backward st g ctx).ret_list[12 + (6 * scene.shapes.length +
            (7 * scene.materials.length +
            (3 * scene.area_lights.length + 3)))]? = some (some ⟨[4, 4]⟩) ∧
          (backward st g ctx).ret_list[12 + (6 * scene.shapes.length +
            (7 * scene.materials.length +
            (3 * scene.area_lights.length + 4)))]? = some none ∧
          (backward st g ctx).ret_list[12 + (6 * scene.shapes.length +
            (7 * scene.materials.length +
            (3 * scene.area_lights.length + 5)))]? = some none ∧
          (backward st g ctx).ret_list[12 + (6 * scene.shapes.length +
            (7 * scene.materials.length +
            (3 * scene.area_lights.length + 6)))]? = some none)) := by
  obtain ⟨hsh, hmat, hlights, henv, hseed, hnum, hnc⟩ := forward_serialize_inv h
  have hS : ctx.shapes.length = scene.shapes.length := by
    rw [ctxShapes_length hsh, annotateLightIds_length]
  have hM : ctx.materials.length = scene.materials.length :=
    ctxMaterials_length hmat
  have hL : ctx.area_lights.length = scene.area_lights.length := by
    rw [hlights, List.length_map]
  have hgetser : ∀ q, q < 7 →
      (serialize_scene scene ns mb ch sty p s).2[11 +
        (6 * scene.shapes.length + (7 * scene.materials.length +
        (3 * scene.area_lights.length + q)))]? =
      (envmapArgs scene.envmap)[q]? := by
    intro q hq
    have hx := ser_get_envmap
      { scene with shapes := annotateLightIds scene.shapes scene.area_lights 0 }
      ns mb ch sty p s q hq
    simpa [annotateLightIds_length] using hx
  have hgetb : ∀ q, q < 7 →
      (backward st g ctx).ret_list[12 + (6 * scene.shapes.length +
        (7 * scene.materials.length + (3 * scene.area_lights.length + q)))]? =
      (d_envmap_slots ctx.envmap)[q]? := by
    intro q hq
    rw [← hS, ← hM, ← hL]
    exact bwd_get_envmap st g ctx q hq
  constructor
  · intro hnone
    have he : ctx.envmap = none := by
      rw [hnone] at henv
      simpa [renvOf] using henv.symm
    constructor
    · intro q hq
      rw [hgetser q hq, hnone]
      interval_cases q <;> rfl
    · intro q hq
      rw [hgetb q hq, he]
      interval_cases q <;> rfl
  · intro e he
    constructor
    · refine ⟨?_, ?_, ?_, ?_, ?_, ?_, ?_⟩ <;>
        rw [hgetser _ (by omega), he] <;> rfl
    · intro hne l hh w rest hdims
      have hctx : ctx.envmap = some ⟨w, hh, l⟩ := by
        rw [he] at henv
        simp [renvOf, hne, hdims] at henv
        exact henv.symm
      refine ⟨?_, ?_, ?_, ?_, ?_, ?_, ?_⟩ <;>
        rw [hgetb _ (by omega), hctx] <;> rfl

/-- C4 (witness for the amended theorem): on `sceneE` the backward env block
is `[(7,32,64,3) buffer, marker, …, (4,4) buffer at slot 3, …]` and the
forward env block starts with the radiance mipmap tensor. -/
theorem C4_witness :
    (backward initState g0 ctxE).ret_list[12]? = some (some ⟨[7, 32, 64, 3]⟩) ∧
    (backward initState g0 ctxE).ret_list[13]? = some none ∧
    (backward initState g0 ctxE).ret_list[15]? = some (some ⟨[4, 4]⟩) ∧
    (serialize_scene sceneE 1 1 [0] 0 true true).2[11]? =
      some (Arg.tensor ⟨[7, 32, 64, 3]⟩) := by
  have h := C4_envmap_blocks sceneE 1 1 [0] 0 true true 0 ctxE initState g0
    (by decide)
  have h2 := (h.2 env0 rfl).2 (by decide) 7 32 64 [3] rfl
  exact ⟨h2.1, h2.2.1, h2.2.2.2.1, ((h.2 env0 rfl).1).1⟩

/-- C5: `serialize_scene` emits, in order: the shape/material/light counts as
plain integers (slots 0–2), the eight camera fields (slots 3–10), then for
each shape in declaration order a six-slot block — vertices, indices,
uvs-or-empty-marker, normals-or-empty-marker, material index, light index —
where an absent UV/normal buffer occupies its slot as the explicit empty
marker rather than being omitted. -/
theorem C5_serialize_field_order (scene : Scene) (ns mb : Int) (ch : List Nat)
    (sty : Nat) (p s : Bool) :
    ((serialize_scene scene ns mb ch sty p s).2[0]? =
        some (Arg.intVal (scene.shapes.length : Int)) ∧
     (serialize_scene scene ns mb ch sty p s).2[1]? =
        some (Arg.intVal (scene.materials.length : Int)) ∧
     (serialize_scene scene ns mb ch sty p s).2[2]? =
        some (Arg.intVal (scene.area_lights.length : Int))) ∧
    ((serialize_scene scene ns mb ch sty p s).2[3]? =
        some (Arg.tensor scene.camera.position) ∧
     (serialize_scene scene ns mb ch sty p s).2[4]? =
        some (Arg.tensor scene.camera.look_at) ∧
     (serialize_scene scene ns mb ch sty p s).2[5]? =
        some (Arg.tensor scene.camera.up) ∧
     (serialize_scene scene ns mb ch sty p s).2[6]? =
        some (Arg.tensor scene.camera.ndc_to_cam) ∧
     (serialize_scene scene ns mb ch sty p s).2[7]? =
        some (Arg.tensor scene.camera.cam_to_ndc) ∧
     (serialize_scene scene ns mb ch sty p s).2[8]? =
        some (Arg.floatVal scene.camera.clip_near) ∧
     (serialize_scene scene ns mb ch sty p s).2[9]? =
        some (Arg.intPair scene.camera.resolution.1 scene.camera.resolution.2) ∧
     (serialize_scene scene ns mb ch sty p s).2[10]? =
        some (Arg.tagVal scene.camera.camera_type)) ∧
    (∀ i sh, (serialize_scene scene ns mb ch sty p s).1.shapes[i]? = some sh →
      (serialize_scene scene ns mb ch sty p s).2[11 + (6 * i + 0)]? =
        some (Arg.tensor sh.vertices) ∧
      (serialize_scene scene ns mb ch sty p s).2[11 + (6 * i + 1)]? =
        some (Arg.tensor sh.indices) ∧
      (serialize_scene scene ns mb ch sty p s).2[11 + (6 * i + 2)]? =
        some (match sh.uvs with | none => Arg.empty | some u => Arg.tensor u) ∧
      (serialize_scene scene ns mb ch sty p s).2[11 + (6 * i + 3)]? =
        some (match sh.normals with
              | none => Arg.empty
              | some v => Arg.tensor v) ∧
      (serialize_scene scene ns mb ch sty p s).2[11 + (6 * i + 4)]? =
        some (Arg.intVal sh.material_id) ∧
      (serialize_scene scene ns mb ch sty p s).2[11 + (6 * i + 5)]? =
        some (Arg.intVal sh.light_id)) := by
  have hser : (serialize_scene scene ns mb ch sty p s).2 =
      serializeArgs
        { scene with shapes := annotateLightIds scene.shapes scene.area_lights 0 }
        ns mb ch sty p s := rfl
  refine ⟨⟨?_, ?_, ?_⟩, ⟨?_, ?_, ?_, ?_, ?_, ?_, ?_, ?_⟩, ?_⟩
  · have h0 : (serialize_scene scene ns mb ch sty p s).2[0]? =
        some (Arg.intVal
          ((annotateLightIds scene.shapes scene.area_lights 0).length : Int)) := by
      rw [hser, ser_get_header _ ns mb ch sty p s 0 (by omega)]; rfl
    rw [annotateLightIds_length] at h0
    exact h0
  · rw [hser, ser_get_header _ ns mb ch sty p s 1 (by omega)]; rfl
  · rw [hser, ser_get_header _ ns mb ch sty p s 2 (by omega)]; rfl
  · rw [hser, ser_get_header _ ns mb ch sty p s 3 (by omega)]; rfl
  · rw [hser, ser_get_header _ ns mb ch sty p s 4 (by omega)]; rfl
  · rw [hser, ser_get_header _ ns mb ch sty p s 5 (by omega)]; rfl
  · rw [hser, ser_get_header _ ns mb ch sty p s 6 (by omega)]; rfl
  · rw [hser, ser_get_header _ ns mb ch sty p s 7 (by omega)]; rfl
  · rw [hser, ser_get_header _ ns mb ch sty p s 8 (by omega)]; rfl
  · rw [hser, ser_get_header _ ns mb ch sty p s 9 (by omega)]; rfl
  · rw [hser, ser_get_header _ ns mb ch sty p s 10 (by omega)]; rfl
  · intro i sh hA
    obtain ⟨hiA, hval⟩ := List.getElem?_eq_some_iff.1 hA
    have hval' :
        ({ scene with
            shapes := annotateLightIds scene.shapes scene.area_lights 0 }
          : Scene).shapes.get ⟨i, hiA⟩ = sh := hval
    refine ⟨?_, ?_, ?_, ?_, ?_, ?_⟩ <;>
      rw [hser, ser_get_shape
        ({ scene with
            shapes := annotateLightIds scene.shapes scene.area_lights 0 })
        ns mb ch sty p s i _ hiA (by omega), hval'] <;> rfl

/-- C5 (witness): on `scene1` the count slot is 2, the second shape's UV slot
holds the empty marker, and its light-id slot holds the annotated index 0. -/
theorem C5_witness :
    (serialize_scene scene1 4 2 [0] 0 true false).2[0]? =
      some (Arg.intVal 2) ∧
    (serialize_scene scene1 4 2 [0] 0 true false).2[11 + (6 * 1 + 2)]? =
      some Arg.empty ∧
    (serialize_scene scene1 4 2 [0] 0 true false).2[11 + (6 * 1 + 5)]? =
      some (Arg.intVal 0) := by
  have h := C5_serialize_field_order scene1 4 2 [0] 0 true false
  have hsh := h.2.2 1 { shape1 with light_id := 0 } (by decide)
  exact ⟨h.1.1, hsh.2.2.1, hsh.2.2.2.2.2⟩

/-- C9: `serialize_scene` mutates the scene in place before flattening:
provided no shape is claimed by two lights and the referenced shape ids are
in range (the spec's stated invariant), the shape owned by light `i` ends up
with `light_id = i`; every other field of every shape record, and every
shape not owned by a light, is left unchanged. -/
theorem C9_annotation_effect (scene : Scene) (ns mb : Int) (ch : List Nat)
    (sty : Nat) (p s : Bool)
    (hnodup : (scene.area_lights.map AreaLight.shape_id).Nodup)
    (hrange : ∀ l ∈ scene.area_lights, l.shape_id < scene.shapes.length) :
    ((serialize_scene scene ns mb ch sty p s).1.shapes.length =
      scene.shapes.length) ∧
    (∀ i (hi : i < scene.area_lights.length),
      (((serialize_scene scene ns mb ch sty p s).1.shapes[
          (scene.area_lights.get ⟨i, hi⟩).shape_id]?).map Shape.light_id) =
        some (i : Int)) ∧
    (∀ j : Nat,
      ((((serialize_scene scene ns mb ch sty p s).1.shapes[j]?).map
          Shape.vertices) = (scene.shapes[j]?).map Shape.vertices) ∧
      ((((serialize_scene scene ns mb ch sty p s).1.shapes[j]?).map
          Shape.indices) = (scene.shapes[j]?).map Shape.indices) ∧
      ((((serialize_scene scene ns mb ch sty p s).1.shapes[j]?).map
          Shape.uvs) = (scene.shapes[j]?).map Shape.uvs) ∧
      ((((serialize_scene scene ns mb ch sty p s).1.shapes[j]?).map
          Shape.normals) = (scene.shapes[j]?).map Shape.normals) ∧
      ((((serialize_scene scene ns mb ch sty p s).1.shapes[j]?).map
          Shape.material_id) = (scene.shapes[j]?).map Shape.material_id)) ∧
    (∀ j : Nat, (∀ l ∈ scene.area_lights, l.shape_id ≠ j) →
      (serialize_scene scene ns mb ch sty p s).1.shapes[j]? =
        scene.shapes[j]?) := by
  have hshapes : (serialize_scene scene ns mb ch sty p s).1.shapes =
      annotateLightIds scene.shapes scene.area_lights 0 := rfl
  refine ⟨?_, ?_, ?_, ?_⟩
  · rw [hshapes, annotateLightIds_length]
  · intro i hi
    rw [hshapes]
    simpa using
      annotateLightIds_light_id scene.shapes scene.area_lights 0 hnodup hrange i hi
  · intro j
    rw [hshapes]
    exact ⟨annotateLightIds_fields Shape.vertices (fun _ _ => rfl) _ _ _ _,
      annotateLightIds_fields Shape.indices (fun _ _ => rfl) _ _ _ _,
      annotateLightIds_fields Shape.uvs (fun _ _ => rfl) _ _ _ _,
      annotateLightIds_fields Shape.normals (fun _ _ => rfl) _ _ _ _,
      annotateLightIds_fields Shape.material_id (fun _ _ => rfl) _ _ _ _⟩
  · intro j hj
    rw [hshapes]
    exact annotateLightIds_getElem?_untouched _ _ _ _ hj

/-- C9 (witness): on `scene1`, the light's owning shape (index 1) carries
light id 0 after serialization, and the unreferenced shape 0 is unchanged. -/
theorem C9_witness :
    (((serialize_scene scene1 4 2 [0] 0 true false).1.shapes[1]?).map
        Shape.light_id) = some 0 ∧
    (serialize_scene scene1 4 2 [0] 0 true false).1.shapes[0]? =
      some shape0 := by
  have h := C9_annotation_effect scene1 4 2 [0] 0 true false
    (by decide) (by decide)
  exact ⟨h.2.1 0 (by decide), (h.2.2.2 0 (by decide)).trans (by decide)⟩

end RenderTF
